import Mathlib

/-!
Verification development for the BingeHouse movie-butler chain
(`supabase/functions/process-movie-query/movie-butler-chain.ts`).

The TypeScript source is embedded shallowly: pure string and list
manipulation becomes Lean functions over `List Char` / `String`; the
JavaScript regular expressions used by the classifier and extractors are
transcribed into an explicit `Rx` syntax tree and executed by a fueled
backtracking matcher with JavaScript `.test` / `.match` semantics
(leftmost match, greedy quantifiers, `i`-flag case folding, `^ $ \b`
assertions, negative lookahead); effectful collaborators (language-model
calls, the OMDB HTTP API, `crypto.randomUUID`, `Date`, `Math.random`)
are passed in as explicit oracle parameters; the Supabase tables become
an explicit database state threaded through the pipeline.
-/

namespace BingeHouse

/-- Apostrophe character (codepoint 39), used in several source regexes
and string literals. -/
def aposC : Char := Char.ofNat 39

/-- Characters treated as whitespace by JavaScript `\s`, `trim` and
`parseFloat` (ASCII subset; the source never feeds non-ASCII space). -/
def jsWhite (c : Char) : Bool :=
  c = ' ' || c = '\t' || c = '\n' || c = '\r' || c = Char.ofNat 11 || c = Char.ofNat 12

/-- JavaScript `String.prototype.trim` on a character list. -/
def trimChars (l : List Char) : List Char :=
  ((l.dropWhile jsWhite).reverse.dropWhile jsWhite).reverse

/-- JavaScript `String.prototype.trim`. -/
def jsTrim (s : String) : String := ⟨trimChars s.data⟩

/-- JavaScript `String.prototype.toLowerCase` (ASCII). -/
def jsToLower (s : String) : String := ⟨s.data.map Char.toLower⟩

/-- `needle.isPrefixOf hay` on char lists, decidable and executable. -/
def prefOf : List Char → List Char → Bool
  | [], _ => true
  | _ :: _, [] => false
  | a :: as, b :: bs => a = b && prefOf as bs

/-- JavaScript `hay.includes needle` (substring test). -/
def inclChars : List Char → List Char → Bool
  | hay, needle =>
    match hay with
    | [] => needle.isEmpty
    | _ :: rest => prefOf needle hay || inclChars rest needle

/-- JavaScript `hay.includes needle` on strings. -/
def jsIncludes (hay needle : String) : Bool := inclChars hay.data needle.data

/-- JavaScript falsy-string defaulting: `s || d`. -/
def jsOr (s d : String) : String := if s = "" then d else s

/-- Comma-space join, as JavaScript `Array.prototype.join(m)` with
separator given first. -/
def joinSep (sep : String) : List String → String
  | [] => ""
  | [x] => x
  | x :: xs => x ++ sep ++ joinSep sep xs

/-- Last `n` elements of a list: JavaScript `Array.prototype.slice(-n)`
for a list already longer than `n`. -/
def lastN (n : Nat) (l : List α) : List α := l.drop (l.length - n)

/-! ## A small JavaScript-style regular-expression engine

Each regex literal of the source is transcribed into this syntax tree.
The matcher is a continuation-passing backtracking search: alternatives
try the left branch first and quantifiers are greedy, which reproduces
the JavaScript match choice; fuel bounds the recursion depth and is
chosen generously relative to pattern size and subject length. -/

/-- Regex syntax: empty string, character class (possibly negated),
concatenation, alternation, Kleene star, begin/end anchors, word
boundary and its negation, and negative lookahead. -/
inductive Rx where
  | eps : Rx
  | cls (neg : Bool) (ranges : List (Char × Char)) : Rx
  | seq (a b : Rx) : Rx
  | alt (a b : Rx) : Rx
  | star (a : Rx) : Rx
  | bos : Rx
  | eos : Rx
  | wb : Rx
  | nwb : Rx
  | nla (a : Rx) : Rx
deriving Repr

/-- Structural size of a regex, used to compute matcher fuel. -/
def Rx.size : Rx → Nat
  | .eps => 1
  | .cls _ _ => 1
  | .seq a b => a.size + b.size + 1
  | .alt a b => a.size + b.size + 1
  | .star a => a.size + 1
  | .bos | .eos | .wb | .nwb => 1
  | .nla a => a.size + 1

/-- Does character `c` fall in one of the ranges, with optional
case-insensitive (`i` flag) folding as in JavaScript canonicalization. -/
def inRanges (ci : Bool) (ranges : List (Char × Char)) (c : Char) : Bool :=
  let hit := fun (x : Char) => ranges.any (fun p => decide (p.1 ≤ x) && decide (x ≤ p.2))
  hit c || (ci && (hit c.toLower || hit c.toUpper))

/-- Class membership including negation (JavaScript `[^...]`). -/
def clsMatch (ci : Bool) (neg : Bool) (ranges : List (Char × Char)) (c : Char) : Bool :=
  let b := inRanges ci ranges c
  if neg then !b else b

/-- JavaScript `\w` word character. -/
def isWordChar (c : Char) : Bool :=
  ('a' ≤ c && c ≤ 'z') || ('A' ≤ c && c ≤ 'z'.toUpper) || ('0' ≤ c && c ≤ '9') || c = '_'

/-- Word-boundary test between the previous character (`none` at the
start of input) and the rest of the input. -/
def atBoundary (prev : Option Char) (s : List Char) : Bool :=
  let pw := match prev with | none => false | some c => isWordChar c
  let nw := match s with | [] => false | c :: _ => isWordChar c
  pw != nw

/-- Backtracking matcher.  `runM ci fuel r prev s k` tries to match `r`
at the current position (input remainder `s`, previous character
`prev`), calling continuation `k` on every candidate end position in
the JavaScript preference order until one succeeds.  Returns the
remainder of the input after the full match chosen, or `none`. -/
def runM (ci : Bool) : Nat → Rx → Option Char → List Char →
    (Option Char → List Char → Option (List Char)) → Option (List Char)
  | 0, _, _, _, _ => none
  | _ + 1, .eps, prev, s, k => k prev s
  | _ + 1, .cls neg rs, _, s, k =>
    match s with
    | [] => none
    | c :: rest => if clsMatch ci neg rs c then k (some c) rest else none
  | fuel + 1, .seq a b, prev, s, k =>
    runM ci fuel a prev s (fun p2 s2 => runM ci fuel b p2 s2 k)
  | fuel + 1, .alt a b, prev, s, k =>
    match runM ci fuel a prev s k with
    | some r => some r
    | none => runM ci fuel b prev s k
  | fuel + 1, .star a, prev, s, k =>
    match runM ci fuel a prev s (fun p2 s2 =>
        if s2.length < s.length then runM ci fuel (.star a) p2 s2 k else none) with
    | some r => some r
    | none => k prev s
  | _ + 1, .bos, prev, s, k => if prev.isNone then k prev s else none
  | _ + 1, .eos, prev, s, k => if s.isEmpty then k prev s else none
  | _ + 1, .wb, prev, s, k => if atBoundary prev s then k prev s else none
  | _ + 1, .nwb, prev, s, k => if atBoundary prev s then none else k prev s
  | fuel + 1, .nla a, prev, s, k =>
    match runM ci fuel a prev s (fun _ s2 => some s2) with
    | some _ => none
    | none => k prev s

/-- Fuel that is ample for the depth of any backtracking path of `r` on
a subject of length `n`. -/
def fuelFor (r : Rx) (n : Nat) : Nat := 2 * (r.size + 2) * (n + 2)

/-- Try to match `r` starting exactly at the current position; returns
the input remainder after the (greedy, leftmost-choice) match. -/
def matchHere (ci : Bool) (r : Rx) (prev : Option Char) (s : List Char) : Option (List Char) :=
  runM ci (fuelFor r s.length) r prev s (fun _ rest => some rest)

/-- Scan left to right for the first position where `r` matches;
returns `(prefixRev, matchedLen, rest)` data as (start index, length). -/
def scanFrom (ci : Bool) (r : Rx) : Option Char → List Char → Nat → Option (Nat × Nat)
  | prev, s, i =>
    match matchHere ci r prev s with
    | some rest => some (i, s.length - rest.length)
    | none =>
      match s with
      | [] => none
      | c :: rest => scanFrom ci r (some c) rest (i + 1)

/-- JavaScript `regex.test s`: does `r` match anywhere in `s`. -/
def rxTest (ci : Bool) (r : Rx) (s : String) : Bool :=
  (scanFrom ci r none s.data 0).isSome

/-- JavaScript `s.match(regex)` without the `g` flag: the text of the
leftmost match, or `none`. -/
def firstMatchStr (ci : Bool) (r : Rx) (s : String) : Option String :=
  match scanFrom ci r none s.data 0 with
  | some (i, len) => some ⟨(s.data.drop i).take len⟩
  | none => none

/-- One step of global matching: find the leftmost match at or after the
current position and return (match text, position after it for the next
scan — bumped by one on an empty match, as JavaScript does). -/
def gStep (ci : Bool) (r : Rx) (s : List Char) : Option (List Char × List Char) :=
  match scanFrom ci r none s 0 with
  | some (i, len) =>
    let m := (s.drop i).take len
    some (m, s.drop (i + (if len = 0 then 1 else len)))
  | none => none

/-- JavaScript `s.match(regex)` with the `g` flag: texts of all matches
(with the standard empty-match position bump), `fuel` bounds the number
of iterations. -/
def gMatchAux (ci : Bool) (r : Rx) : Nat → List Char → List String
  | 0, _ => []
  | fuel + 1, s =>
    match gStep ci r s with
    | some (m, rest) => (⟨m⟩ : String) :: (if rest.length < s.length then gMatchAux ci r fuel rest else [])
    | none => []

/-- All matches of `r` in `s` (JavaScript `String.prototype.match` with
the `g` flag, returning `[]` instead of `null`). -/
def allMatches (ci : Bool) (r : Rx) (s : String) : List String :=
  gMatchAux ci r (s.data.length + 1) s.data

/-- JavaScript `s.replace(regex, repl)` without the `g` flag: replace
the leftmost match only. -/
def replaceFirst (ci : Bool) (r : Rx) (s : String) (repl : String) : String :=
  match scanFrom ci r none s.data 0 with
  | some (i, len) => ⟨s.data.take i ++ repl.data ++ s.data.drop (i + len)⟩
  | none => s

/-- One global-replace step used by `replaceAll`. -/
def replaceAllAux (ci : Bool) (r : Rx) (repl : List Char) : Nat → List Char → List Char
  | 0, s => s
  | fuel + 1, s =>
    match scanFrom ci r none s 0 with
    | some (i, len) =>
      let bumped := if len = 0 then 1 else len
      s.take i ++ repl ++
        (if i + bumped ≤ s.length && (s.drop (i + bumped)).length < s.length then
          replaceAllAux ci r repl fuel (s.drop (i + bumped)) ++ (if len = 0 then s.drop i |>.take 1 else [])
        else s.drop (i + bumped))
    | none => s

/-- JavaScript `s.replace(regex, repl)` with the `g` flag.  The source
only ever global-replaces with patterns that consume at least one
character, so the empty-match bump path is never exercised. -/
def replaceAll (ci : Bool) (r : Rx) (s : String) (repl : String) : String :=
  ⟨replaceAllAux ci r repl.data (s.data.length + 1) s.data⟩

/-! ### Regex construction helpers (transcription combinators) -/

/-- Concatenation of a pattern list. -/
def rcat (l : List Rx) : Rx := l.foldr Rx.seq Rx.eps

/-- Alternation of a pattern list (JavaScript preference order). -/
def ralt : List Rx → Rx
  | [] => Rx.cls false []
  | [r] => r
  | r :: rs => Rx.alt r (ralt rs)

/-- Single literal character. -/
def rchar (c : Char) : Rx := Rx.cls false [(c, c)]

/-- Literal string. -/
def rstr (s : String) : Rx := rcat (s.data.map rchar)

/-- Whitespace ranges for `\s`. -/
def wsRanges : List (Char × Char) :=
  [(' ', ' '), ('\t', '\t'), ('\n', '\n'), ('\r', '\r'),
   (Char.ofNat 11, Char.ofNat 11), (Char.ofNat 12, Char.ofNat 12)]

/-- `\s`. -/
def rws : Rx := Rx.cls false wsRanges

/-- `\d`. -/
def rdigit : Rx := Rx.cls false [('0', '9')]

/-- `[a-zA-Z]`. -/
def rletter : Rx := Rx.cls false [('a', 'z'), ('A', 'Z')]

/-- `r+`. -/
def rplus (r : Rx) : Rx := Rx.seq r (Rx.star r)

/-- `r?`. -/
def ropt (r : Rx) : Rx := Rx.alt r Rx.eps

/-- `\s+`. -/
def rwsP : Rx := rplus rws

/-- `\s*`. -/
def rwsS : Rx := Rx.star rws

/-- `.` (any character but a line terminator). -/
def rdot : Rx := Rx.cls true [('\n', '\n'), ('\r', '\r')]

/-- `\d{2}`. -/
def rd2 : Rx := Rx.seq rdigit rdigit

/-- `19\d{2}|20\d{2}`. -/
def rYear : Rx := ralt [rcat [rstr "19", rd2], rcat [rstr "20", rd2]]

/-- A literal-word alternation where every space in each word stands for
`\s+` (used for entries written `mean\s+girls` and friends). -/
def rwords (s : String) : Rx :=
  rcat (((s.splitOn " ").map rstr).intersperse rwsP)

/-! ## Regex literals of `detectGeneralConversation`

Every pattern below transcribes one regex literal from the source, in
source order.  All of these patterns carry the `i` flag in the source,
so `detectGeneralConversation` tests them case-insensitively (the one
all-digit pattern is unaffected by the flag). -/

/-- Character class `[a-zA-Z\s:\x27-]` used by several title-shaped
patterns. -/
def titleClsRanges : List (Char × Char) :=
  [('a', 'z'), ('A', 'Z')] ++ wsRanges ++ [(':', ':'), (aposC, aposC), ('-', '-')]

/-- `[a-zA-Z\s:\x27-]`. -/
def rtitleC : Rx := Rx.cls false titleClsRanges

/-- Source list `generalPatterns` (eight regexes). -/
def generalPatterns : List Rx :=
  [ -- ^(hi|hello|hey|thanks|thank you|ok|okay|cool|nice|great|awesome)$
    rcat [Rx.bos, ralt [rstr "hi", rstr "hello", rstr "hey", rstr "thanks",
      rstr "thank you", rstr "ok", rstr "okay", rstr "cool", rstr "nice",
      rstr "great", rstr "awesome"], Rx.eos],
    -- ^(what do you think|any other|anything else|what about|how about)
    rcat [Rx.bos, ralt [rstr "what do you think", rstr "any other",
      rstr "anything else", rstr "what about", rstr "how about"]],
    -- ^(tell me more|more info|details|explain)
    rcat [Rx.bos, ralt [rstr "tell me more", rstr "more info", rstr "details", rstr "explain"]],
    -- ^(recommend|suggest|any recommendations|what should i watch)
    rcat [Rx.bos, ralt [rstr "recommend", rstr "suggest",
      rstr "any recommendations", rstr "what should i watch"]],
    -- ^(give me|show me|find me)\s+(some|any)?\s*(recommendations|suggestions)
    rcat [Rx.bos, ralt [rstr "give me", rstr "show me", rstr "find me"], rwsP,
      ropt (ralt [rstr "some", rstr "any"]), rwsS,
      ralt [rstr "recommendations", rstr "suggestions"]],
    -- ^(suggest|recommend)\s+(a|an|some)?\s*(good|great|best|slow\s+burn|action|...)\s*(movie|film)
    rcat [Rx.bos, ralt [rstr "suggest", rstr "recommend"], rwsP,
      ropt (ralt [rstr "a", rstr "an", rstr "some"]), rwsS,
      ralt [rstr "good", rstr "great", rstr "best", rwords "slow burn",
        rstr "action", rstr "thriller", rstr "drama", rstr "comedy",
        rstr "horror", rstr "sci-fi", rstr "romance", rstr "mystery"], rwsS,
      ralt [rstr "movie", rstr "film"]],
    -- ^(suggest|recommend)\s+(a|an|some)?\s*(slow\s+burn|underrated|hidden\s+gem|classic|recent|new|old)\s*(movie|film)?
    rcat [Rx.bos, ralt [rstr "suggest", rstr "recommend"], rwsP,
      ropt (ralt [rstr "a", rstr "an", rstr "some"]), rwsS,
      ralt [rwords "slow burn", rstr "underrated", rwords "hidden gem",
        rstr "classic", rstr "recent", rstr "new", rstr "old"], rwsS,
      ropt (ralt [rstr "movie", rstr "film"])],
    -- ^(any\s+good|what\s+are\s+some\s+good|can\s+you\s+suggest|what\s+about\s+some)\s*(...)?\s*(movies|films)
    rcat [Rx.bos, ralt [rwords "any good", rwords "what are some good",
      rwords "can you suggest", rwords "what about some"], rwsS,
      ropt (ralt [rwords "slow burn", rstr "action", rstr "thriller",
        rstr "drama", rstr "comedy", rstr "horror", rstr "sci-fi",
        rstr "romance", rstr "mystery"]), rwsS,
      ralt [rstr "movies", rstr "films"]] ]

/-- Character class `[a-zA-Z\s\x27"-]` used by the "A or B" comparison
pattern. -/
def orClsRanges : List (Char × Char) :=
  [('a', 'z'), ('A', 'Z')] ++ wsRanges ++ [(aposC, aposC), ('"', '"'), ('-', '-')]

/-- Source list `comparisonPatterns` (thirteen regexes). -/
def comparisonPatterns : List Rx :=
  [ -- ^(which one is better|which is better|what\x27s better|whats better)
    rcat [Rx.bos, ralt [rstr "which one is better", rstr "which is better",
      rstr ("what" ++ (String.mk [aposC]) ++ "s better"), rstr "whats better"]],
    -- ^(yes|yeah|yep|sure|no|nope|not really|maybe)$
    rcat [Rx.bos, ralt [rstr "yes", rstr "yeah", rstr "yep", rstr "sure",
      rstr "no", rstr "nope", rstr "not really", rstr "maybe"], Rx.eos],
    -- ^(so this is better|is this better|better than)
    rcat [Rx.bos, ralt [rstr "so this is better", rstr "is this better", rstr "better than"]],
    -- ^(which one|which movie|what about)
    rcat [Rx.bos, ralt [rstr "which one", rstr "which movie", rstr "what about"]],
    -- ^(compare|comparison|vs|versus)
    rcat [Rx.bos, ralt [rstr "compare", rstr "comparison", rstr "vs", rstr "versus"]],
    -- ^(what do you think about|your opinion|do you prefer)
    rcat [Rx.bos, ralt [rstr "what do you think about", rstr "your opinion", rstr "do you prefer"]],
    -- ^(recommend|suggest)\s+(similar|something similar|more like)
    rcat [Rx.bos, ralt [rstr "recommend", rstr "suggest"], rwsP,
      ralt [rstr "similar", rstr "something similar", rstr "more like"]],
    -- ^(can you recommend|could you recommend|please recommend)\s+(similar|something)
    rcat [Rx.bos, ralt [rstr "can you recommend", rstr "could you recommend",
      rstr "please recommend"], rwsP, ralt [rstr "similar", rstr "something"]],
    -- ^[a-zA-Z\s\x27"-]+\s+or\s+[a-zA-Z\s\x27"-]+\??$
    rcat [Rx.bos, rplus (Rx.cls false orClsRanges), rwsP, rstr "or", rwsP,
      rplus (Rx.cls false orClsRanges), ropt (rchar '?'), Rx.eos],
    -- ^(that one|this one|the first one|the second one|that movie|this movie)
    rcat [Rx.bos, ralt [rstr "that one", rstr "this one", rstr "the first one",
      rstr "the second one", rstr "that movie", rstr "this movie"]],
    -- ^(more about|tell me more about|what else about)
    rcat [Rx.bos, ralt [rstr "more about", rstr "tell me more about", rstr "what else about"]],
    -- \b(forrest\s+gump|the\s+pianist)\s+or\s+\b
    rcat [Rx.wb, ralt [rwords "forrest gump", rwords "the pianist"],
      rwsP, rstr "or", rwsP, Rx.wb],
    -- which\s+is\s+better.*(forrest\s+gump|the\s+pianist)
    rcat [rwords "which is better", Rx.star rdot,
      ralt [rwords "forrest gump", rwords "the pianist"]] ]

/-- Source list `recommendationPatterns` (ten regexes). -/
def recommendationPatterns : List Rx :=
  [ -- ^(recommend|suggest|any recommendations|what should i watch)(?!\s+similar|\s+like)
    rcat [Rx.bos, ralt [rstr "recommend", rstr "suggest",
      rstr "any recommendations", rstr "what should i watch"],
      Rx.nla (ralt [rcat [rwsP, rstr "similar"], rcat [rwsP, rstr "like"]])],
    -- ^(recommend something|suggest something|any good movies|something different|better movie)$
    rcat [Rx.bos, ralt [rstr "recommend something", rstr "suggest something",
      rstr "any good movies", rstr "something different", rstr "better movie"], Rx.eos],
    -- ^(give me|show me|find me)\s+(a|some|any)?\s*(good|better|different)?\s*(movie|film)
    rcat [Rx.bos, ralt [rstr "give me", rstr "show me", rstr "find me"], rwsP,
      ropt (ralt [rstr "a", rstr "some", rstr "any"]), rwsS,
      ropt (ralt [rstr "good", rstr "better", rstr "different"]), rwsS,
      ralt [rstr "movie", rstr "film"]],
    -- ^(can you recommend|could you recommend|please recommend)\s*(similar|something|a movie)
    rcat [Rx.bos, ralt [rstr "can you recommend", rstr "could you recommend",
      rstr "please recommend"], rwsS, ralt [rstr "similar", rstr "something", rstr "a movie"]],
    -- ^(recommend|suggest)\s+(similar|something similar)\s*(movie|film)?
    rcat [Rx.bos, ralt [rstr "recommend", rstr "suggest"], rwsP,
      ralt [rstr "similar", rstr "something similar"], rwsS,
      ropt (ralt [rstr "movie", rstr "film"])],
    -- ^(suggest|recommend)\s+(a|an|some)?\s*(good|great|best|slow\s+burn|action|...)\s*(movie|film)
    rcat [Rx.bos, ralt [rstr "suggest", rstr "recommend"], rwsP,
      ropt (ralt [rstr "a", rstr "an", rstr "some"]), rwsS,
      ralt [rstr "good", rstr "great", rstr "best", rwords "slow burn",
        rstr "action", rstr "thriller", rstr "drama", rstr "comedy",
        rstr "horror", rstr "sci-fi", rstr "romance", rstr "mystery"], rwsS,
      ralt [rstr "movie", rstr "film"]],
    -- ^(suggest|recommend)\s+(a|an|some)?\s*(slow\s+burn|underrated|hidden\s+gem|classic|recent|new|old)\s*(movie|film)?
    rcat [Rx.bos, ralt [rstr "suggest", rstr "recommend"], rwsP,
      ropt (ralt [rstr "a", rstr "an", rstr "some"]), rwsS,
      ralt [rwords "slow burn", rstr "underrated", rwords "hidden gem",
        rstr "classic", rstr "recent", rstr "new", rstr "old"], rwsS,
      ropt (ralt [rstr "movie", rstr "film"])],
    -- ^(any\s+good|what\s+are\s+some\s+good|can\s+you\s+suggest|what\s+about\s+some)\s*(...)?\s*(movies|films)
    rcat [Rx.bos, ralt [rwords "any good", rwords "what are some good",
      rwords "can you suggest", rwords "what about some"], rwsS,
      ropt (ralt [rwords "slow burn", rstr "action", rstr "thriller",
        rstr "drama", rstr "comedy", rstr "horror", rstr "sci-fi",
        rstr "romance", rstr "mystery"]), rwsS,
      ralt [rstr "movies", rstr "films"]],
    -- ^(what\s+about|how\s+about)\s+(a|an|some)?\s*(good|slow\s+burn|action|thriller|drama|comedy)?\s*(movie|film)
    rcat [Rx.bos, ralt [rwords "what about", rwords "how about"], rwsP,
      ropt (ralt [rstr "a", rstr "an", rstr "some"]), rwsS,
      ropt (ralt [rstr "good", rwords "slow burn", rstr "action",
        rstr "thriller", rstr "drama", rstr "comedy"]), rwsS,
      ralt [rstr "movie", rstr "film"]] ]

/-- Source list `movieQueryPatterns` (six regexes). -/
def movieQueryPatterns : List Rx :=
  [ -- ^(how is|how was|how\x27s|hows)\s+[a-zA-Z]
    rcat [Rx.bos, ralt [rstr "how is", rstr "how was",
      rstr ("how" ++ (String.mk [aposC]) ++ "s"), rstr "hows"], rwsP, rletter],
    -- ^(what about|tell me about|about)\s+[a-zA-Z][a-zA-Z\s:\x27-]+$
    rcat [Rx.bos, ralt [rstr "what about", rstr "tell me about", rstr "about"],
      rwsP, rletter, rplus rtitleC, Rx.eos],
    -- ^(give recommendation for|review)\s+[a-zA-Z]
    rcat [Rx.bos, ralt [rstr "give recommendation for", rstr "review"], rwsP, rletter],
    -- ^[a-zA-Z][a-zA-Z\s:\x27-]+$
    rcat [Rx.bos, rletter, rplus rtitleC, Rx.eos],
    -- (movie|film)\s+[a-zA-Z]
    rcat [ralt [rstr "movie", rstr "film"], rwsP, rletter],
    -- [a-zA-Z]+\s+(movie|film)$
    rcat [rplus rletter, rwsP, ralt [rstr "movie", rstr "film"], Rx.eos] ]

/-- Source list `movieContextPatterns` (fifteen regexes). -/
def movieContextPatterns : List Rx :=
  [ -- ^(no|nope|not that|different|wrong|another)\s+[a-zA-Z]
    rcat [Rx.bos, ralt [rstr "no", rstr "nope", rstr "not that",
      rstr "different", rstr "wrong", rstr "another"], rwsP, rletter],
    -- (recent|latest|newer|new one|newest)\s+[a-zA-Z]
    rcat [ralt [rstr "recent", rstr "latest", rstr "newer", rstr "new one",
      rstr "newest"], rwsP, rletter],
    -- (original|first|older|classic)\s+[a-zA-Z]
    rcat [ralt [rstr "original", rstr "first", rstr "older", rstr "classic"], rwsP, rletter],
    -- (that movie|that film|this movie|this film)
    ralt [rstr "that movie", rstr "that film", rstr "this movie", rstr "this film"],
    -- (for .+|about .+)
    ralt [rcat [rstr "for ", rplus rdot], rcat [rstr "about ", rplus rdot]],
    -- (korean|japanese|french|italian|spanish|chinese).*(movie|film)
    rcat [ralt [rstr "korean", rstr "japanese", rstr "french", rstr "italian",
      rstr "spanish", rstr "chinese"], Rx.star rdot, ralt [rstr "movie", rstr "film"]],
    -- (movie|film).*(korean|japanese|french|italian|spanish|chinese)
    rcat [ralt [rstr "movie", rstr "film"], Rx.star rdot,
      ralt [rstr "korean", rstr "japanese", rstr "french", rstr "italian",
        rstr "spanish", rstr "chinese"]],
    -- 20\d{2}
    rcat [rstr "20", rd2],
    -- goosebumps.*movie
    rcat [rstr "goosebumps", Rx.star rdot, rstr "movie"],
    -- movie.*goosebumps
    rcat [rstr "movie", Rx.star rdot, rstr "goosebumps"],
    -- (sequel|its sequel|part 2|part ii|part two)\s+[a-zA-Z]
    rcat [ralt [rstr "sequel", rstr "its sequel", rstr "part 2", rstr "part ii",
      rstr "part two"], rwsP, rletter],
    -- ^[A-Z][a-zA-Z\s:\x27-]+\s+(19\d{2}|20\d{2})$
    rcat [Rx.bos, rletter, rplus rtitleC, rwsP, rYear, Rx.eos],
    -- ^(it\x27s|its)\s+(part\s+two|part\s+2|part\s+ii|sequel)
    rcat [Rx.bos, ralt [rstr ("it" ++ (String.mk [aposC]) ++ "s"), rstr "its"], rwsP,
      ralt [rwords "part two", rwords "part 2", rwords "part ii", rstr "sequel"]],
    -- (part\s+two|part\s+2|part\s+ii)$
    rcat [ralt [rwords "part two", rwords "part 2", rwords "part ii"], Rx.eos],
    -- (glass\s+onion|onion\s+glass)
    ralt [rwords "glass onion", rwords "onion glass"] ]

/-- Regex `^(yes|yeah|yep|sure|no|nope)$` used for the
`isContextualResponse` check. -/
def simpleResponseRx : Rx :=
  rcat [Rx.bos, ralt [rstr "yes", rstr "yeah", rstr "yep", rstr "sure",
    rstr "no", rstr "nope"], Rx.eos]

/-- Regex `^[A-Z][a-z\s:\x27-]+(\s\d{4})?$` used for the
`hasMovieTitlePattern` check (with the `i` flag, both letter classes
cover all letters). -/
def movieTitleShapeRx : Rx :=
  rcat [Rx.bos, rletter,
    rplus (Rx.cls false ([('a', 'z'), ('A', 'Z')] ++ wsRanges ++
      [(':', ':'), (aposC, aposC), ('-', '-')])),
    ropt (rcat [rws, rdigit, rdigit, rdigit, rdigit]), Rx.eos]

/-- Source `containsMovieKeywords`: keyword substring scan over the
lower-cased query. -/
def containsMovieKeywords (query : String) : Bool :=
  let movieKeywords := ["movie", "film", "watch", "seen", "director", "actor",
    "actress", "rating", "imdb", "review", "plot", "genre", "cast", "trailer"]
  let lowerQuery := jsToLower query
  movieKeywords.any (fun k => jsIncludes lowerQuery k)

/-- Source `detectGeneralConversation` (the pattern-based query
classifier; pure, so the `Promise` wrapper is dropped).  The
movie-query pattern check comes first and short-circuits to `false`,
exactly as in the source. -/
def detectGeneralConversation (query : String) : Bool :=
  let qt := jsTrim query
  let isMovieQuery := movieQueryPatterns.any (fun p => rxTest true p qt)
  if isMovieQuery then false
  else
    let isGeneral := generalPatterns.any (fun p => rxTest true p qt)
    let isComparison := comparisonPatterns.any (fun p => rxTest true p qt)
    let isRecommendationRequest := recommendationPatterns.any (fun p => rxTest true p qt)
    let isMovieContext := movieContextPatterns.any (fun p => rxTest true p qt)
    let isShort := decide (qt.length < 50)
    let hasMovieKeywords := containsMovieKeywords query
    let isContextualResponse := rxTest true simpleResponseRx qt
    let hasMovieTitlePattern := rxTest true movieTitleShapeRx qt && decide (qt.length > 3)
    if isComparison then true
    else if isContextualResponse then true
    else if isRecommendationRequest && !isMovieContext then true
    else if (isMovieContext || hasMovieTitlePattern) && !isComparison && !isContextualResponse then
      false
    else
      isGeneral || isComparison || isContextualResponse ||
        (isShort && !hasMovieKeywords && !hasMovieTitlePattern && !isMovieQuery)

/-! ## JavaScript `parseFloat`

`worth_watching` is computed as `parseFloat(movieData.imdbRating || "0") >= 7.0`.
The numeric value of a decimal literal is modelled exactly over `ℚ`
(every rating string the chain produces is a short decimal, where the
IEEE-754 comparison against 7.0 agrees with the exact rational one). -/

/-- Result of `parseFloat`: NaN, a signed infinity, or a finite value
represented as the exact (unnormalized) fraction `n / d`; the
construction in `parseFloatJS` always yields a positive power of ten
for `d`. -/
inductive JSNum where
  | nan : JSNum
  | inf (neg : Bool) : JSNum
  | num (n : Int) (d : Nat) : JSNum
deriving DecidableEq

/-- The rational value of a finite `parseFloat` result. -/
def JSNum.toRat : JSNum → Option ℚ
  | .nan => none
  | .inf _ => none
  | .num n d => some ((n : ℚ) / (d : ℚ))

/-- Leading decimal digits of a character list. -/
def spanDigits (l : List Char) : List Char × List Char :=
  (l.takeWhile Char.isDigit, l.dropWhile Char.isDigit)

/-- Numeric value of a digit string. -/
def natOfDigits (l : List Char) : Nat :=
  l.foldl (fun a c => a * 10 + (c.toNat - 48)) 0

/-- `10 ^ k` by structural recursion (kernel-reducible). -/
def tenPowNat : Nat → Nat
  | 0 => 1
  | k + 1 => 10 * tenPowNat k

/-- JavaScript `parseFloat`: skip leading whitespace, optional sign,
then the longest prefix that is `Infinity` or a decimal literal with an
optional exponent; anything unparsable is NaN.  The value
`±(d1.d2) * 10^e` is represented exactly as an integer fraction. -/
def parseFloatJS (s : String) : JSNum :=
  let l := s.data.dropWhile jsWhite
  let signAndRest : Bool × List Char :=
    match l with
    | c :: r => if c = '-' then (true, r) else if c = '+' then (false, r) else (false, l)
    | [] => (false, [])
  let neg := signAndRest.1
  let l1 := signAndRest.2
  if prefOf "Infinity".data l1 then JSNum.inf neg
  else
    let p1 := spanDigits l1
    let d1 := p1.1
    let p2 : List Char × List Char :=
      match p1.2 with
      | '.' :: rest => spanDigits rest
      | r => ([], r)
    let d2 := p2.1
    let r2 : List Char :=
      match p1.2 with
      | '.' :: rest => (spanDigits rest).2
      | r => r
    if d1.isEmpty && d2.isEmpty then JSNum.nan
    else
      let e : Int :=
        match r2 with
        | c :: rest =>
          if c = 'e' ∨ c = 'E' then
            match rest with
            | '-' :: r3 => (if (spanDigits r3).1.isEmpty then 0 else -(natOfDigits (spanDigits r3).1 : Int))
            | '+' :: r3 => (if (spanDigits r3).1.isEmpty then 0 else (natOfDigits (spanDigits r3).1 : Int))
            | r3 => (if (spanDigits r3).1.isEmpty then 0 else (natOfDigits (spanDigits r3).1 : Int))
          else 0
        | [] => 0
      let scale : Int := e - d2.length
      let mag : Int := (natOfDigits (d1 ++ d2) : Int) * (tenPowNat scale.toNat : Int)
      JSNum.num (if neg then -mag else mag) (tenPowNat (-scale).toNat)

/-- The comparison `x >= 7.0` on a `parseFloat` result (false for NaN,
exact integer cross-multiplication for finite values). -/
def atLeastSeven (x : JSNum) : Bool :=
  match x with
  | .nan => false
  | .inf neg => !neg
  | .num n d => decide (7 * (d : Int) ≤ n)

/-- The worth-watching threshold applied to a rating string, exactly as
both branches of `generateRecommendation` compute it:
`parseFloat(rating || "0") >= 7.0`. -/
def ratingWorthWatching (rating : String) : Bool :=
  atLeastSeven (parseFloatJS (jsOr rating "0"))

/-! ## Conversation memory and its save operations -/

/-- Message role. -/
inductive Role where
  | user : Role
  | assistant : Role
deriving DecidableEq

/-- One entry of `ConversationMemory.messages`. -/
structure Msg where
  role : Role
  content : String
  timestamp : Nat
deriving DecidableEq

/-- One entry of `ConversationMemory.discussedMovies`.  The source type
has optional `genre`/`rating`; absence is modelled by `""` and every
JavaScript `||`-default on these fields goes through `jsOr`. -/
structure DiscussedMovie where
  title : String
  genre : String
  rating : String
deriving DecidableEq

/-- `ConversationMemory.userPreferences`. -/
structure UserPreferences where
  genres : List String
  lastContext : String
deriving DecidableEq

/-- Source interface `ConversationMemory`. -/
structure ConversationMemory where
  messages : List Msg
  discussedMovies : List DiscussedMovie
  userPreferences : UserPreferences
  totalTokens : Nat
  turnCount : Nat
deriving DecidableEq

/-- A fresh conversation, as created by `loadConversation`. -/
def emptyConversation : ConversationMemory :=
  { messages := [], discussedMovies := [],
    userPreferences := { genres := [], lastContext := "" },
    totalTokens := 0, turnCount := 0 }

/-- Source `saveUserMessage`, acting on the memory record: push the
user message, keep only the last 10 messages, bump the turn counter. -/
def saveUserMessageMem (conv : ConversationMemory) (message : String) (ts : Nat) :
    ConversationMemory :=
  let msgs := conv.messages ++ [{ role := Role.user, content := message, timestamp := ts }]
  let msgs := if msgs.length > 10 then lastN 10 msgs else msgs
  { conv with messages := msgs, turnCount := conv.turnCount + 1 }

/-- Movie-data fields consulted by `saveAssistantMessage` when adding a
discussed movie (the normalized record always carries plain strings;
a comma-separated genre list is cut at the first comma, as in the
source). -/
structure MovieLite where
  title : String
  genre : String
  imdbRating : String
deriving DecidableEq

/-- The genre string after the source's array/comma normalization:
`genre.split(",")[0].trim()` when a comma is present. -/
def firstGenre (genre : String) : String :=
  if jsIncludes genre "," then jsTrim ((genre.splitOn ",").headD "") else genre

/-- Source `saveAssistantMessage`, acting on the memory record: push
the assistant message (with no truncation of the message list), and if
movie data is present push a discussed-movie entry, keep only the last
5 movies, and update the preferred-genre list (bounded by 3). -/
def saveAssistantMessageMem (conv : ConversationMemory) (message : String) (ts : Nat)
    (movieData : Option MovieLite) : ConversationMemory :=
  let conv := { conv with
    messages := conv.messages ++ [{ role := Role.assistant, content := message, timestamp := ts }] }
  match movieData with
  | none => conv
  | some m =>
    let genre := firstGenre m.genre
    let movieEntry : DiscussedMovie :=
      { title := m.title, genre := jsOr genre "Unknown", rating := jsOr m.imdbRating "N/A" }
    let dm := conv.discussedMovies ++ [movieEntry]
    let dm := if dm.length > 5 then lastN 5 dm else dm
    let genres :=
      if genre ≠ "" ∧ genre ≠ "Unknown" ∧ ¬ conv.userPreferences.genres.contains genre then
        let gs := conv.userPreferences.genres ++ [genre]
        if gs.length > 3 then lastN 3 gs else gs
      else conv.userPreferences.genres
    { conv with
      discussedMovies := dm
      userPreferences := { conv.userPreferences with genres := genres } }

/-! ## Base-title extraction and the contextual query resolver -/

/-- Regex `\s*\(\d{4}\)`. -/
def rxParenYear : Rx := rcat [rwsS, rchar '(', rdigit, rdigit, rdigit, rdigit, rchar ')']

/-- Regex `:\s*.+$`. -/
def rxColonTail : Rx := rcat [rchar ':', rwsS, rplus rdot, Rx.eos]

/-- Regex `\s*-\s*.+$`. -/
def rxDashTail : Rx := rcat [rwsS, rchar '-', rwsS, rplus rdot, Rx.eos]

/-- Regex `\s*part\s+\d+` (case-insensitive in the source). -/
def rxPartNum : Rx := rcat [rwsS, rstr "part", rwsP, rplus rdigit]

/-- Regex `\s*\d+$`. -/
def rxTrailNum : Rx := rcat [rwsS, rplus rdigit, Rx.eos]

/-- Regex `\s*\d{4}$`. -/
def rxTrailYear4 : Rx := rcat [rwsS, rdigit, rdigit, rdigit, rdigit, Rx.eos]

/-- Regex `\s+with\s+.+$` (case-insensitive). -/
def rxWithTail : Rx := rcat [rwsP, rstr "with", rwsP, rplus rdot, Rx.eos]

/-- Regex `\s+starring\s+.+$` (case-insensitive). -/
def rxStarringTail : Rx := rcat [rwsP, rstr "starring", rwsP, rplus rdot, Rx.eos]

/-- The local `getBaseTitle` helper of `handleContextualQueries`:
strip a parenthesized year, a subtitle after `:` or `-`, a
`part N` suffix and trailing digits, then trim. -/
def getBaseTitle (title : String) : String :=
  jsTrim (replaceFirst false rxTrailNum
    (replaceFirst true rxPartNum
      (replaceFirst false rxDashTail
        (replaceFirst false rxColonTail
          (replaceFirst false rxParenYear title "") "") "") "") "")

/-- Source method `extractBaseTitle`: strip a trailing year, a
parenthesized year, subtitles after `:` or `-`, and `with`/`starring`
actor suffixes, then trim. -/
def extractBaseTitle (title : String) : String :=
  jsTrim (replaceFirst true rxStarringTail
    (replaceFirst true rxWithTail
      (replaceFirst false rxDashTail
        (replaceFirst false rxColonTail
          (replaceFirst false rxParenYear
            (replaceFirst false rxTrailYear4 title "") "") "") "") "") "")

/-- Regex `([a-zA-Z][a-zA-Z\s:\x27-]+(?:\s+\d{4}|\s+1984|\s+returns|\s+rises|\s+begins))`
used by `handleContextualQueries` to spot a direct movie mention. -/
def directMoviePattern : Rx :=
  rcat [rletter, rplus rtitleC,
    ralt [rcat [rwsP, rdigit, rdigit, rdigit, rdigit],
      rcat [rwsP, rstr "1984"], rcat [rwsP, rstr "returns"],
      rcat [rwsP, rstr "rises"], rcat [rwsP, rstr "begins"]]]

/-- Regex `\b(19\d{2}|20\d{2})\b` used for year extraction. -/
def yearTokenRx : Rx := rcat [Rx.wb, rYear, Rx.wb]

/-- The contextual categories of `handleContextualQueries`. -/
inductive ContextKind where
  | directReference
  | sequel
  | sequelInquiry
  | specificMovieMention
  | recommendation
  | clarification
  | recent
  | original
  | yearSpecific
  | countrySpecific
  | comparison
deriving DecidableEq

/-- Source table `contextualPatterns`: ordered (substring list, context)
pairs, scanned top to bottom. -/
def contextualPatterns : List (List String × ContextKind) :=
  [ (["that movie", "that film", "it", "this movie", "this film"], ContextKind.directReference),
    (["sequel", "its sequel", "the sequel", "follow up", "next one", "part 2",
      "part ii", "part two", "second one", "second part",
      "it" ++ (String.mk [aposC]) ++ "s part two", "part two"], ContextKind.sequel),
    (["any sequel", "there any sequel", "are there sequel", "have sequel",
      "sequels exist"], ContextKind.sequelInquiry),
    (["glass onion", "onion glass"], ContextKind.specificMovieMention),
    (["recommendation", "recommend", "suggest", "similar", "like that",
      "different", "another", "else"], ContextKind.recommendation),
    (["no", "not that", "wrong", "different", "korean", "korean movie",
      "korean version"], ContextKind.clarification),
    (["recent", "latest", "newer", "new one", "newest"], ContextKind.recent),
    (["original", "first", "older", "classic"], ContextKind.original),
    (["2023", "2024", "2025", "1984"], ContextKind.yearSpecific),
    (["korean", "japanese", "french", "italian", "spanish", "chinese"], ContextKind.countrySpecific),
    (["better", "which is better", "compare", "vs", "versus"], ContextKind.comparison) ]

/-- Source `sequelMap`: static franchise-to-known-sequels table used
for sequel requests. -/
def sequelMap : List (String × List String) :=
  [ ("wonder woman", ["Wonder Woman 1984", "Wonder Woman: 1984"]),
    ("sherlock holmes", ["Sherlock Holmes: A Game of Shadows"]),
    ("mission impossible", ["Mission: Impossible - Dead Reckoning Part One",
      "Mission: Impossible - Fallout"]),
    ("top gun", ["Top Gun: Maverick"]),
    ("avatar", ["Avatar: The Way of Water"]),
    ("batman begins", ["The Dark Knight", "The Dark Knight Rises"]),
    ("the dark knight", ["The Dark Knight Rises"]),
    ("batman", ["Batman Returns", "Batman Forever", "The Dark Knight"]),
    ("spider-man", ["Spider-Man 2", "Spider-Man 3", "Spider-Man: No Way Home"]),
    ("iron man", ["Iron Man 2", "Iron Man 3"]),
    ("thor", ["Thor: The Dark World", "Thor: Ragnarok", "Thor: Love and Thunder"]),
    ("captain america", ["Captain America: The Winter Soldier", "Captain America: Civil War"]),
    ("guardians of the galaxy", ["Guardians of the Galaxy Vol. 2",
      "Guardians of the Galaxy Vol. 3"]),
    ("toy story", ["Toy Story 2", "Toy Story 3", "Toy Story 4"]),
    ("john wick", ["John Wick: Chapter 2", "John Wick: Chapter 3", "John Wick: Chapter 4"]),
    ("fast and furious", ["2 Fast 2 Furious", "Fast & Furious", "Fast Five", "Fast X"]),
    ("the matrix", ["The Matrix Reloaded", "The Matrix Revolutions",
      "The Matrix Resurrections"]),
    ("terminator", ["Terminator 2: Judgment Day", "Terminator 3: Rise of the Machines"]),
    ("alien", ["Aliens", "Alien 3", "Alien: Resurrection"]),
    ("star wars", ["The Empire Strikes Back", "Return of the Jedi"]),
    ("back to the future", ["Back to the Future Part II", "Back to the Future Part III"]),
    ("the godfather", ["The Godfather Part II", "The Godfather Part III"]),
    ("knives out", ["Glass Onion: A Knives Out Mystery", "Glass Onion"]) ]

/-- The universal sequel pattern list built when the franchise is not
in `sequelMap`; the source returns its first element (`base + " 2"`),
the rest are constructed but never consulted, so only the head is
modelled. -/
def universalSequelHead (baseTitle : String) : String := baseTitle ++ " 2"

/-- The sequel handler of `handleContextualQueries`: static-map lookup
(preferring a sequel not yet discussed), falling back to the first
universal pattern. -/
def sequelLookup (baseTitle : String) (lastTitle : String)
    (previousMovies : List DiscussedMovie) : Option String :=
  let baseLower := jsToLower baseTitle
  match sequelMap.find? (fun p =>
      baseLower = p.1 || jsIncludes baseLower p.1 || jsIncludes p.1 baseLower) with
  | some (_, sequels) =>
    let undiscussed := sequels.find? (fun sequel =>
      !(previousMovies.any (fun prev => jsToLower prev.title = jsToLower sequel)) &&
      jsToLower lastTitle ≠ jsToLower sequel)
    some (undiscussed.getD (sequels.getD 0 ""))
  | none => some (universalSequelHead baseTitle)

/-- One contextual-category handler.  Returns `none` when the source
falls through to the next table row, and `some r` when the source
returns (`r = none` models an explicit `return null`). -/
def handleContextKind (kind : ContextKind) (patterns : List String) (lowerQuery : String)
    (query : String) (lastMovie : DiscussedMovie) (previousMovies : List DiscussedMovie) :
    Option (Option String) :=
  let baseTitle := getBaseTitle lastMovie.title
  match kind with
  | .specificMovieMention =>
    if jsIncludes lowerQuery "glass onion" || jsIncludes lowerQuery "onion glass" then
      some (some "Glass Onion")
    else some none
  | .directReference => some (some lastMovie.title)
  | .recommendation => some none
  | .comparison => some none
  | .sequel => some (sequelLookup baseTitle lastMovie.title previousMovies)
  | .sequelInquiry => some (sequelLookup baseTitle lastMovie.title previousMovies)
  | .clarification =>
    if jsIncludes lowerQuery "korean" then
      some (some (getBaseTitle lastMovie.title ++ " Korean"))
    else if jsIncludes lowerQuery "different" || jsIncludes lowerQuery "another" then
      some none
    else some (some (getBaseTitle lastMovie.title))
  | .countrySpecific =>
    let country := (patterns.find? (fun p => jsIncludes lowerQuery p)).getD ""
    some (some (baseTitle ++ " " ++ country))
  | .recent => some (some baseTitle)
  | .original => none
  | .yearSpecific =>
    match firstMatchStr false yearTokenRx query with
    | some y => some (some (baseTitle ++ " " ++ y))
    | none => none

/-- The for-loop of `handleContextualQueries` over the contextual
pattern table. -/
def runContextual (rows : List (List String × ContextKind)) (lowerQuery query : String)
    (lastMovie : DiscussedMovie) (previousMovies : List DiscussedMovie) : Option String :=
  match rows with
  | [] => none
  | (patterns, kind) :: rest =>
    if patterns.any (fun p => jsIncludes lowerQuery p) then
      match handleContextKind kind patterns lowerQuery query lastMovie previousMovies with
      | some r => r
      | none => runContextual rest lowerQuery query lastMovie previousMovies
    else runContextual rest lowerQuery query lastMovie previousMovies

/-- Source `handleContextualQueries`: resolve a contextual reference to
a concrete movie title using the conversation memory (the store lookup
is passed in as an `Option`). -/
def handleContextualQueries (query : String) (conversation : Option ConversationMemory) :
    Option String :=
  match conversation with
  | none => none
  | some conv =>
    match conv.discussedMovies.getLast? with
    | none => none
    | some lastMovie =>
      let lowerQuery := jsTrim (jsToLower query)
      let previousMovies := conv.discussedMovies.dropLast
      let fromDirect : Option String :=
        match firstMatchStr true directMoviePattern query with
        | some g =>
          if g.length > 3 then
            let potentialTitle := jsTrim g
            if jsToLower potentialTitle ≠ jsToLower lastMovie.title then some potentialTitle
            else none
          else none
        | none => none
      match fromDirect with
      | some t => some t
      | none =>
        if jsIncludes lowerQuery (jsToLower lastMovie.title) then
          if jsIncludes lowerQuery "different" || jsIncludes lowerQuery "another" ||
              jsIncludes lowerQuery "else" || jsIncludes lowerQuery "sequel" ||
              jsIncludes lowerQuery "1984" then
            none
          else some lastMovie.title
        else
          runContextual contextualPatterns lowerQuery query lastMovie previousMovies

/-! ## The recommendation generator -/

/-- The movie record produced by `normalizeMovieData` (all fields are
plain strings after normalization). -/
structure NormalizedMovie where
  id : String
  title : String
  year : String
  imdbID : String
  poster : String
  imdbRating : String
  imdbVotes : String
  plot : String
  director : String
  actors : String
  genre : String
  created_at : String
deriving DecidableEq

/-- The record returned by `generateRecommendation`. -/
structure RecommendationRecord where
  id : String
  movie_id : String
  recommendation : String
  worth_watching : Bool
  created_at : String
  tokensUsed : Nat
deriving DecidableEq

/-- `lastIndexOf` for a single character on a list, returning the index
of the rightmost occurrence. -/
def lastIndexOfChar (c : Char) : List Char → Option Nat
  | [] => none
  | x :: xs =>
    match lastIndexOfChar c xs with
    | some i => some (i + 1)
    | none => if x = c then some 0 else none

/-- The 600-character safe truncation of `generateRecommendation` on a
character list: cut at the last full stop of the first 600 characters
when its index exceeds 200, otherwise hard-truncate to 597 characters
plus an ellipsis. -/
def truncateRecChars (l : List Char) : List Char :=
  if l.length > 600 then
    let truncated := l.take 600
    match lastIndexOfChar '.' truncated with
    | some lastSentence =>
      if lastSentence > 200 then truncated.take (lastSentence + 1)
      else truncated.take 597 ++ "...".data
    | none => truncated.take 597 ++ "...".data
  else l

/-- String wrapper for the safe truncation. -/
def truncateRecommendation (s : String) : String := ⟨truncateRecChars s.data⟩

/-- Source `getSimilarMoviesByGenre`: the static genre table (fifteen
fixed genres, four example titles each). -/
def genreMovies : List (String × List String) :=
  [ ("Action", ["John Wick", "Mad Max: Fury Road", "The Dark Knight", "Terminator 2"]),
    ("Drama", ["The Shawshank Redemption", "Forrest Gump", "Goodfellas", "Casablanca"]),
    ("Comedy", ["The Grand Budapest Hotel", "Parasite", "Superbad", "Groundhog Day"]),
    ("Thriller", ["Gone Girl", "Zodiac", "Se7en", "The Silence of the Lambs"]),
    ("Horror", ["Hereditary", "The Conjuring", "Get Out", "A Quiet Place"]),
    ("Sci-Fi", ["Blade Runner 2049", "Inception", "Interstellar", "The Matrix"]),
    ("Fantasy", ["The Lord of the Rings", "Pan" ++ (String.mk [aposC]) ++ "s Labyrinth",
      "The Shape of Water", "Big Fish"]),
    ("Romance", ["Before Sunset", "Eternal Sunshine", "Her", "La La Land"]),
    ("Crime", ["Pulp Fiction", "The Godfather", "Fargo", "No Country for Old Men"]),
    ("Animation", ["Spider-Man: Into the Spider-Verse", "WALL-E", "Your Name", "Spirited Away"]),
    ("Adventure", ["Indiana Jones", "Jurassic Park", "Pirates of the Caribbean",
      "Guardians of the Galaxy"]),
    ("War", ["Saving Private Ryan", "Apocalypse Now", "Dunkirk", "1917"]),
    ("Documentary", ["Free Solo", "Won" ++ (String.mk [aposC]) ++ "t You Be My Neighbor?",
      "The Act of Killing", "March of the Penguins"]),
    ("Biography", ["The Social Network", "Steve Jobs", "Malcolm X", "Gandhi"]),
    ("Mystery", ["Knives Out", "The Prestige", "Shutter Island", "Prisoners"]) ]

/-- The fixed fallback title list for an unmatched genre. -/
def fallbackPopular : List String := ["The Dark Knight", "Inception", "Pulp Fiction"]

/-- Source `getSimilarMoviesByGenre`.  The `Math.random()` shuffle of
the matched genre list is modelled by an explicit `shuffle` oracle (the
source sorts a copy of the list with a random comparator before taking
three titles). -/
def getSimilarMoviesByGenre (genre : String) (shuffle : List String → List String) :
    List String :=
  let lowerGenre := jsToLower genre
  match genreMovies.find? (fun p =>
      jsIncludes lowerGenre (jsToLower p.1) || jsIncludes (jsToLower p.1) lowerGenre) with
  | some (_, movies) => (shuffle movies).take 3
  | none => fallbackPopular

/-- The two quality phrases of the fallback template, selected by the
rating threshold. -/
def qualityPhrase (worthWatching : Bool) : String :=
  if worthWatching then "Worth watching with solid ratings and engaging content."
  else "Consider carefully as ratings suggest mixed reception."

/-- The deterministic template text of the fallback recommendation. -/
def fallbackRecommendationText (movieData : NormalizedMovie) (worthWatching : Bool)
    (similarMovies : List String) : String :=
  "\"" ++ movieData.title ++ "\" (" ++ movieData.year ++ ") - " ++
    qualityPhrase worthWatching ++ " Appeals to fans of " ++ movieData.genre ++
    " cinema and those seeking " ++
    (if worthWatching then "quality entertainment" else "alternative viewing") ++
    ". Similar movies: " ++ joinSep ", " (similarMovies.take 3) ++ "."

/-- Source `generateRecommendation`, with the language-model call as an
oracle: `some (text, tokens)` is a successful completion, `none` is a
thrown error, which lands in the catch block and produces the
deterministic fallback (randomness of the similar-title shuffle is an
explicit oracle).  Returns the recommendation record and the updated
conversation memory (token accounting happens only on success, as in
the source). -/
def generateRecommendation (movieData : NormalizedMovie)
    (conversation : Option ConversationMemory) (llm : Option (String × Nat))
    (shuffle : List String → List String) (uuid now : String) :
    RecommendationRecord × Option ConversationMemory :=
  match llm with
  | some (text, tokensUsed) =>
    let recommendationText := truncateRecommendation (jsTrim text)
    let worthWatching := ratingWorthWatching movieData.imdbRating
    let conversation := conversation.map (fun c =>
      { c with totalTokens := c.totalTokens + tokensUsed })
    ({ id := uuid, movie_id := movieData.id, recommendation := recommendationText,
       worth_watching := worthWatching, created_at := now, tokensUsed := tokensUsed },
     conversation)
  | none =>
    let similarMovies := getSimilarMoviesByGenre (jsOr movieData.genre "Drama") shuffle
    let worthWatching := ratingWorthWatching movieData.imdbRating
    ({ id := uuid, movie_id := movieData.id,
       recommendation := fallbackRecommendationText movieData worthWatching similarMovies,
       worth_watching := worthWatching, created_at := now, tokensUsed := 0 },
     conversation)

/-! ## Title extraction -/

/-- Regex `^(ace|mean\s+girls|[a-zA-Z][a-zA-Z\s:\x27-]*)\s+(19\d{2}|20\d{2}|with\s+[a-zA-Z\s]+)$`
(the direct movie-with-specifics bypass of `extractMovieTitles`). -/
def directBypassRx : Rx :=
  rcat [Rx.bos,
    ralt [rstr "ace", rwords "mean girls", Rx.seq rletter (Rx.star rtitleC)],
    rwsP,
    ralt [rYear, rcat [rstr "with", rwsP,
      rplus (Rx.cls false ([('a', 'z'), ('A', 'Z')] ++ wsRanges))]],
    Rx.eos]

/-- Source `isCommonWord`: the stop-word list rejected as a movie
title. -/
def isCommonWord (word : String) : Bool :=
  let commonWords := ["the", "a", "an", "is", "are", "was", "were", "will", "would",
    "should", "could", "yes", "no", "ok", "okay", "sure", "yeah", "yep", "nope",
    "how", "what", "when", "where", "why", "who", "which",
    "sequel", "sequels", "recommendation", "recommend", "suggest",
    "better", "good", "bad", "great", "awesome", "terrible",
    "recent", "latest", "new", "old", "classic", "modern"]
  commonWords.contains (jsToLower word)

/-- Class `[a-zA-Z0-9\s&:\x27-]` for the general extraction patterns. -/
def extClsRanges : List (Char × Char) :=
  [('a', 'z'), ('A', 'Z'), ('0', '9')] ++ wsRanges ++
    [('&', '&'), (':', ':'), (aposC, aposC), ('-', '-')]

/-- Lazy-quantifier bodies are matched for existence only, so the
transcription uses the greedy star (equivalent under `.test`, and the
matched-substring boundaries of these anchored patterns coincide). -/
def rext : Rx := Rx.cls false extClsRanges

/-- The three anchored direct patterns of `extractTitlesWithRegex`
(movie + year, movie + `with` actor, movie + year + `with` actor). -/
def extractDirectPatterns : List Rx :=
  [ rcat [Rx.bos, rletter, Rx.star rtitleC, rwsP, rYear, Rx.eos],
    rcat [Rx.bos, rletter, Rx.star rtitleC, rwsP, rstr "with", rwsP,
      rplus (Rx.cls false ([('a', 'z'), ('A', 'Z')] ++ wsRanges)), Rx.eos],
    rcat [Rx.bos, rletter, Rx.star rtitleC, rwsP, rYear, rwsP, rstr "with", rwsP,
      rplus (Rx.cls false ([('a', 'z'), ('A', 'Z')] ++ wsRanges)), Rx.eos] ]

/-- Source `specificMentions` map of `extractTitlesWithRegex`. -/
def specificMentions : List (String × String) :=
  [("glass onion", "Glass Onion"), ("onion glass", "Glass Onion"),
   ("part two", "part two"), ("part 2", "part 2"), ("part ii", "part ii")]

/-- Quote characters accepted by the quoted-title patterns (the source
class also lists two typographic quotes; ASCII input only ever uses
`"`). -/
def quoteCls : Rx := Rx.cls false [('"', '"')]

/-- Negated quote class `[^"]`. -/
def nonQuoteCls : Rx := Rx.cls true [('"', '"')]

/-- Country-word alternation of the extraction patterns. -/
def countryAlt : Rx :=
  ralt [rstr "korean", rstr "japanese", rstr "chinese", rstr "french",
    rstr "italian", rstr "spanish"]

/-- The ordered general patterns of `extractTitlesWithRegex`, each
carrying its `g` flag in the source; the fourth pattern is the only
case-sensitive one (`[A-Z]` without the `i` flag), recorded by the
boolean. -/
def extractSpecificPatterns : List (Bool × Rx) :=
  [ -- ^(?:how\s+is|how\s+was|how\x27s|hows)\s+([a-zA-Z0-9\s&:\x27-]+?)(?:\s*\??)$
    (true, rcat [Rx.bos, ralt [rwords "how is", rwords "how was",
      rstr ("how" ++ (String.mk [aposC]) ++ "s"), rstr "hows"], rwsP,
      rplus rext, rwsS, ropt (rchar '?'), Rx.eos]),
    -- ^(?:give\s+recommendation\s+for|recommend|review)\s+([a-zA-Z0-9\s&:\x27-]+?)(?:\s*\??)$
    (true, rcat [Rx.bos, ralt [rwords "give recommendation for", rstr "recommend",
      rstr "review"], rwsP, rplus rext, rwsS, ropt (rchar '?'), Rx.eos]),
    -- ^(?:what\s+about|tell\s+me\s+about|about)\s+([a-zA-Z0-9\s&:\x27-]+?)(?:\s*\??)$
    (true, rcat [Rx.bos, ralt [rwords "what about", rwords "tell me about",
      rstr "about"], rwsP, rplus rext, rwsS, ropt (rchar '?'), Rx.eos]),
    -- \b([A-Z][a-zA-Z\s&:\x27-]*(?:\s+1984|\s+19\d{2}|\s+20\d{2}))\b  (case-sensitive)
    (false, rcat [Rx.wb, Rx.cls false [('A', 'Z')],
      Rx.star (Rx.cls false ([('a', 'z'), ('A', 'Z')] ++ wsRanges ++
        [('&', '&'), (':', ':'), (aposC, aposC), ('-', '-')])),
      ralt [rcat [rwsP, rstr "1984"], rcat [rwsP, rstr "19", rd2],
        rcat [rwsP, rstr "20", rd2]], Rx.wb]),
    -- (?:movie|film)\s+["..."]([^"..."]+)["..."]
    (true, rcat [ralt [rstr "movie", rstr "film"], rwsP, quoteCls,
      rplus nonQuoteCls, quoteCls]),
    -- ["..."]([^"..."]+)["..."](?:\s+(?:movie|film))?
    (true, rcat [quoteCls, rplus nonQuoteCls, quoteCls,
      ropt (rcat [rwsP, ralt [rstr "movie", rstr "film"]])]),
    -- ([a-zA-Z\s]+)\s+(korean|japanese|chinese|french|italian|spanish)\s*(?:movie|film)?
    (true, rcat [rplus (Rx.cls false ([('a', 'z'), ('A', 'Z')] ++ wsRanges)), rwsP,
      countryAlt, rwsS, ropt (ralt [rstr "movie", rstr "film"])]),
    -- (korean|japanese|chinese|french|italian|spanish)\s+([a-zA-Z\s]+)(?:\s+movie|\s+film)?
    (true, rcat [countryAlt, rwsP,
      rplus (Rx.cls false ([('a', 'z'), ('A', 'Z')] ++ wsRanges)),
      ropt (ralt [rcat [rwsP, rstr "movie"], rcat [rwsP, rstr "film"]])]) ]

/-- Regex `["..."]` used by the cleanup `.replace(/["""]/g, "")`. -/
def quoteOnlyRx : Rx := quoteCls

/-- Regex `\b(movie|film)\b` used by the cleanup (case-insensitive,
global). -/
def movieFilmWordRx : Rx :=
  rcat [Rx.wb, ralt [rstr "movie", rstr "film"], Rx.wb]

/-- The per-match cleanup of `extractTitlesWithRegex`: strip quote
characters, strip the words `movie`/`film`, trim. -/
def cleanExtractedTitle (m : String) : String :=
  let cleaned := jsTrim (replaceAll true quoteOnlyRx m "")
  jsTrim (replaceAll true movieFilmWordRx cleaned "")

/-- The loop over `specificPatterns`: first pattern with at least one
match wins and yields all its cleaned, filtered matches. -/
def tryExtractPatterns : List (Bool × Rx) → String → Option (List String)
  | [], _ => none
  | (ci, r) :: rest, query =>
    let found := allMatches ci r query
    if found.length > 0 then
      let titles := (found.map cleanExtractedTitle).filter
        (fun t => t.length > 2 && !isCommonWord t)
      if titles.length > 0 then some titles
      else tryExtractPatterns rest query
    else tryExtractPatterns rest query

/-- Source `extractTitlesWithRegex`: the regex fallback of the title
resolver. -/
def extractTitlesWithRegex (query : String) : List String :=
  let qt := jsTrim query
  if extractDirectPatterns.any (fun p => rxTest true p qt) then [qt]
  else
    let queryLower := jsTrim (jsToLower query)
    match specificMentions.find? (fun p => jsIncludes queryLower p.1) with
    | some (_, title) => [title]
    | none =>
      match tryExtractPatterns extractSpecificPatterns query with
      | some titles => titles
      | none =>
        let fallbackTitle := jsTrim (replaceAll true movieFilmWordRx (jsTrim query) "")
        if isCommonWord fallbackTitle || fallbackTitle.length < 3 then []
        else [fallbackTitle]

/-- Sentinel labels returned by the model-assisted extractor. -/
def sentinelLabels : List String :=
  ["COMPARISON_QUESTION", "SIMPLE_RESPONSE", "PREFERENCE_QUESTION",
   "GENERAL_RECOMMENDATION", "SIMILAR_RECOMMENDATION", "FOLLOW_UP_QUESTION"]

/-- The conversation-context string handed to the model-assisted
extractor (recent messages and recently discussed titles). -/
def buildExtractionContext (conversation : Option ConversationMemory) : String :=
  match conversation with
  | none => ""
  | some conv =>
    if conv.messages.length > 0 then
      let recentMessages := lastN 4 conv.messages
      let base := joinSep "\n" (recentMessages.map (fun m =>
        (match m.role with | Role.user => "user" | Role.assistant => "assistant") ++
          ": " ++ m.content))
      if conv.discussedMovies.length > 0 then
        let recentMovies := lastN 2 conv.discussedMovies
        base ++ "\n\nRecently discussed: " ++
          joinSep ", " (recentMovies.map (fun m => m.title ++ " (" ++ jsOr m.genre "Unknown" ++ ")"))
      else base
    else ""

/-- Source `extractMovieTitles` with the language-model call as an
oracle (`none` models a thrown extraction error).  Returns the title
candidates and the updated conversation memory (token accounting). -/
def extractMovieTitles (query : String) (conversation : Option ConversationMemory)
    (llmExtract : String → String → Option (String × Nat)) :
    List String × Option ConversationMemory :=
  if rxTest true directBypassRx (jsTrim query) then ([jsTrim query], conversation)
  else
    match handleContextualQueries query conversation with
    | some contextualTitle => ([contextualTitle], conversation)
    | none =>
      let conversationContext := buildExtractionContext conversation
      match llmExtract conversationContext query with
      | some (text, tokensUsed) =>
        let extractedTitle := jsTrim text
        if sentinelLabels.contains extractedTitle then
          ([], conversation.map (fun c => { c with totalTokens := c.totalTokens + tokensUsed }))
        else if extractedTitle.length > 0 && extractedTitle ≠ "N/A" then
          ([extractedTitle],
           conversation.map (fun c => { c with totalTokens := c.totalTokens + tokensUsed }))
        else (extractTitlesWithRegex query, conversation)
      | none => (extractTitlesWithRegex query, conversation)

/-! ## Database model and the pipeline state -/

/-- A row of the `movies` table. -/
structure MovieRow where
  id : String
  user_id : String
  imdbid : String
  title : String
  year : String
  poster : String
  imdbrating : String
  imdbvotes : String
  plot : String
  director : String
  actors : String
  genre : String
  created_at : String
deriving DecidableEq

/-- A row of the `recommendations` table. -/
structure RecRow where
  id : String
  movie_id : String
  recommendation : String
  worth_watching : Bool
  created_at : String
deriving DecidableEq

/-- A row of the `conversations` table. -/
structure ConvRow where
  conversation_id : String
  user_id : Option String
  turns : Nat
  total_tokens : Nat
  messages : List Msg
  discussed_movies : List DiscussedMovie
  user_preferences : UserPreferences
deriving DecidableEq

/-- The user-scoped relational store. -/
structure DB where
  movies : List MovieRow
  recommendations : List RecRow
  conversations : List ConvRow
deriving DecidableEq

/-- Pipeline state: the in-process conversation cache, the store, and a
freshness counter feeding the uuid oracle. -/
structure ChainState where
  store : List (String × ConversationMemory)
  db : DB
  fresh : Nat
deriving DecidableEq

/-- Raw movie data before normalization.  Database rows and OMDB
payloads use disjoint field spellings (`title` versus `Title`), which
`normalizeMovieData` merges with `||`; each pair is modelled as the one
field that is populated, and `id` is present exactly for database
rows. -/
structure RawMovie where
  id : Option String
  title : String
  year : String
  imdbID : String
  poster : String
  imdbRating : String
  imdbVotes : String
  plot : String
  director : String
  actors : String
  genre : String
  created_at : Option String
deriving DecidableEq

/-- View a `movies` row as raw movie data (the database branch of the
`||` chains in `normalizeMovieData`). -/
def rowToRaw (r : MovieRow) : RawMovie :=
  { id := some r.id, title := r.title, year := r.year, imdbID := r.imdbid,
    poster := r.poster, imdbRating := r.imdbrating, imdbVotes := r.imdbvotes,
    plot := r.plot, director := r.director, actors := r.actors, genre := r.genre,
    created_at := some r.created_at }

/-- External collaborators: both language-model chains, the OMDB
search, `crypto.randomUUID` (indexed by the freshness counter),
`Date`, and the `Math.random` shuffle. -/
structure Oracles where
  llmExtract : String → String → Option (String × Nat)
  llmRecommend : Option (String × Nat)
  llmConverse : Option (String × Nat)
  omdb : List String → Option RawMovie
  uuid : Nat → String
  nowIso : String
  nowMs : Nat
  shuffle : List String → List String

/-- The inbound request contract. -/
structure ChainContext where
  userId : Option String
  query : String
  conversationId : String
  sessionId : String
deriving DecidableEq

/-- The pipeline response (log entries are not modelled). -/
structure ChainResponse where
  message : String
  movie : Option NormalizedMovie
  recommendation : Option RecommendationRecord
  turnCount : Nat
  totalTokens : Nat
deriving DecidableEq

/-- Source `normalizeMovieData`: merge either data source into the
uniform record, generating an id (uuid oracle) only when the raw data
has none, exactly like `movieData.id || crypto.randomUUID()`. -/
def normalizeMovieData (raw : RawMovie) (st : ChainState) (ora : Oracles) :
    NormalizedMovie × ChainState :=
  match raw.id with
  | some mid =>
    ({ id := mid, title := raw.title, year := raw.year, imdbID := raw.imdbID,
       poster := raw.poster, imdbRating := jsOr raw.imdbRating "N/A",
       imdbVotes := raw.imdbVotes, plot := raw.plot, director := raw.director,
       actors := raw.actors, genre := raw.genre,
       created_at := raw.created_at.getD ora.nowIso }, st)
  | none =>
    ({ id := ora.uuid st.fresh, title := raw.title, year := raw.year, imdbID := raw.imdbID,
       poster := raw.poster, imdbRating := jsOr raw.imdbRating "N/A",
       imdbVotes := raw.imdbVotes, plot := raw.plot, director := raw.director,
       actors := raw.actors, genre := raw.genre,
       created_at := raw.created_at.getD ora.nowIso }, { st with fresh := st.fresh + 1 })

/-- SQL `LIKE` pattern matching (`%` and `_` wildcards). -/
def likeMatch : List Char → List Char → Bool
  | [], s => s.isEmpty
  | '%' :: ps, s =>
    likeMatch ps s ||
      (match s with
       | [] => false
       | _ :: t => likeMatch ('%' :: ps) t)
  | '_' :: ps, s =>
    (match s with
     | [] => false
     | _ :: t => likeMatch ps t)
  | c :: ps, s =>
    (match s with
     | [] => false
     | d :: t => c = d && likeMatch ps t)
termination_by p s => (p.length, s.length)

/-- Postgres `ILIKE`: case-insensitive `LIKE`. -/
def ilike (pattern : String) (s : String) : Bool :=
  likeMatch (jsToLower pattern).data (jsToLower s).data

/-- The normalization of `findBestTitleMatch`:
`str.toLowerCase().replace(/[^\w\s]/g, "").trim()`. -/
def normalizeTitle (s : String) : String :=
  jsTrim ⟨(jsToLower s).data.filter (fun c => isWordChar c || jsWhite c)⟩

/-- The similarity score of `findBestTitleMatch`: ten points per shared
significant word minus the absolute length difference. -/
def titleScore (searchNormalized movieNormalized : String) : Int :=
  let commonWords := ((searchNormalized.splitOn " ").filter (fun word =>
    jsIncludes movieNormalized word && word.length > 2)).length
  (commonWords : Int) * 10 -
    ((searchNormalized.length : Int) - (movieNormalized.length : Int)).natAbs

/-- Source `findBestTitleMatch`: best-scoring candidate, first row on a
tie (the initial best is the first row with score 0). -/
def findBestTitleMatch (searchTitle : String) (movies : List MovieRow) : Option MovieRow :=
  match movies with
  | [] => none
  | m0 :: _ =>
    let sn := normalizeTitle searchTitle
    let best := movies.foldl (fun (acc : MovieRow × Int) movie =>
      let score := titleScore sn (normalizeTitle movie.title)
      if score > acc.2 then (movie, score) else acc) (m0, 0)
    some best.1

/-- `title.replace(/:/g, "")`. -/
def stripColons (title : String) : String := ⟨title.data.filter (fun c => c ≠ ':')⟩

/-- Length bound of `dropWhile`, used for the termination of the
whitespace-run replacement. -/
theorem dropWhile_length_le (p : Char → Bool) (l : List Char) :
    (l.dropWhile p).length ≤ l.length := by
  induction l with
  | nil => simp [List.dropWhile]
  | cons c t ih =>
    simp only [List.dropWhile]
    split
    · exact Nat.le_succ_of_le ih
    · simp

/-- `title.replace(/\s+/g, "%")`: each whitespace run becomes one `%`. -/
def wsToPct : List Char → List Char
  | [] => []
  | c :: t =>
    if jsWhite c then '%' :: wsToPct (t.dropWhile jsWhite) else c :: wsToPct t
termination_by l => l.length
decreasing_by
  · exact Nat.lt_succ_of_le (dropWhile_length_le _ _)
  · exact Nat.lt_succ_self _

/-- The three fuzzy search patterns of `searchDatabase`. -/
def fuzzyPatterns (title : String) : List String :=
  ["%" ++ title ++ "%",
   "%" ++ stripColons title ++ "%",
   "%" ++ (⟨wsToPct title.data⟩ : String) ++ "%"]

/-- The fuzzy layer of `searchDatabase`: try each pattern, take up to
three user-scoped rows, and pick the best-scoring one. -/
def fuzzySearch (db : DB) (uid : String) (title : String) : List String → Option MovieRow
  | [] => none
  | pattern :: rest =>
    let rows := (db.movies.filter (fun r => ilike pattern r.title && r.user_id = uid)).take 3
    if rows.length > 0 then findBestTitleMatch title rows
    else fuzzySearch db uid title rest

/-- The per-title loop of `searchDatabase`: case-insensitive exact
match first (`maybeSingle`, so only a unique row is returned), then the
fuzzy patterns, then the next candidate title. -/
def searchDatabaseLoop (db : DB) (uid : String) : List String → Option MovieRow
  | [] => none
  | title :: rest =>
    match db.movies.filter (fun r => ilike title r.title && r.user_id = uid) with
    | [exactMatch] => some exactMatch
    | _ =>
      match fuzzySearch db uid title (fuzzyPatterns title) with
      | some best => some best
      | none => searchDatabaseLoop db uid rest

/-- Source `searchDatabase`: the user-scoped store search.  With no
user id it returns `null` before issuing any query. -/
def searchDatabase (titles : List String) (userId : Option String) (db : DB) :
    Option MovieRow :=
  match userId with
  | none => none
  | some uid => searchDatabaseLoop db uid titles

/-- Source `getExistingRecommendation`: for a logged-in user with an
external id, locate the user-scoped movie row and its recommendation
(`single()` semantics: only a unique row counts); otherwise fall back
to a lookup keyed directly by the normalized movie id. -/
def getExistingRecommendation (movieData : NormalizedMovie) (userId : Option String)
    (db : DB) : Option RecRow :=
  let fallback :=
    match db.recommendations.filter (fun r => r.movie_id = movieData.id) with
    | [recRow] => some recRow
    | _ => none
  match userId with
  | some uid =>
    if movieData.imdbID ≠ "" then
      match db.movies.filter (fun r => r.user_id = uid && r.imdbid = movieData.imdbID) with
      | [userMovie] =>
        match db.recommendations.filter (fun r => r.movie_id = userMovie.id) with
        | [existingRec] => some existingRec
        | _ => none
      | _ => none
    else fallback
  | none => fallback

/-- Source `saveToDatabase`: ensure the user has their own row for this
movie; reuse an existing row id or insert a fresh row. -/
def saveToDatabase (movieData : NormalizedMovie) (uid : String) (st : ChainState)
    (ora : Oracles) : Option String × ChainState :=
  match st.db.movies.filter (fun r => r.user_id = uid && r.imdbid = movieData.imdbID) with
  | [existingUserMovie] => (some existingUserMovie.id, st)
  | _ =>
    let newId := ora.uuid st.fresh
    let row : MovieRow :=
      { id := newId, user_id := uid, imdbid := movieData.imdbID, title := movieData.title,
        year := movieData.year, poster := movieData.poster,
        imdbrating := movieData.imdbRating, imdbvotes := movieData.imdbVotes,
        plot := movieData.plot, director := movieData.director,
        actors := movieData.actors, genre := movieData.genre, created_at := ora.nowIso }
    (some newId,
     { st with db := { st.db with movies := st.db.movies ++ [row] }, fresh := st.fresh + 1 })

/-- In-process conversation cache lookup. -/
def storeGet (store : List (String × ConversationMemory)) (cid : String) :
    Option ConversationMemory :=
  (store.find? (fun p => p.1 = cid)).map (fun p => p.2)

/-- In-process conversation cache update. -/
def storeSet (store : List (String × ConversationMemory)) (cid : String)
    (conv : ConversationMemory) : List (String × ConversationMemory) :=
  if store.any (fun p => p.1 = cid) then
    store.map (fun p => if p.1 = cid then (cid, conv) else p)
  else store ++ [(cid, conv)]

/-- Upsert on the `conversations` table keyed by conversation id. -/
def upsertConversation (db : DB) (row : ConvRow) : DB :=
  if db.conversations.any (fun r => r.conversation_id = row.conversation_id) then
    { db with conversations := db.conversations.map (fun r =>
        if r.conversation_id = row.conversation_id then row else r) }
  else { db with conversations := db.conversations ++ [row] }

/-- Source `loadConversation`: cache first, then the store (`single()`
semantics), else a fresh conversation; the result is cached. -/
def loadConversation (cid : String) (st : ChainState) : ConversationMemory × ChainState :=
  match storeGet st.store cid with
  | some conversation => (conversation, st)
  | none =>
    match st.db.conversations.filter (fun r => r.conversation_id = cid) with
    | [row] =>
      let conversation : ConversationMemory :=
        { messages := row.messages, discussedMovies := row.discussed_movies,
          userPreferences := row.user_preferences, totalTokens := row.total_tokens,
          turnCount := row.turns }
      (conversation, { st with store := storeSet st.store cid conversation })
    | _ =>
      (emptyConversation, { st with store := storeSet st.store cid emptyConversation })

/-- Source `saveUserMessage` acting on the pipeline state. -/
def saveUserMessageS (cid message : String) (st : ChainState) (ora : Oracles) : ChainState :=
  match storeGet st.store cid with
  | none => st
  | some conversation =>
    { st with store := storeSet st.store cid (saveUserMessageMem conversation message ora.nowMs) }

/-- The movie-data fields `saveAssistantMessage` reads from a
normalized record. -/
def liteOf (m : NormalizedMovie) : MovieLite :=
  { title := m.title, genre := m.genre, imdbRating := m.imdbRating }

/-- Source `saveAssistantMessage` acting on the pipeline state: update
the cached memory, then mirror it to the `conversations` table
(`saveConversationToDatabase`). -/
def saveAssistantMessageS (cid message : String) (movieData : Option MovieLite)
    (userId : Option String) (st : ChainState) (ora : Oracles) : ChainState :=
  match storeGet st.store cid with
  | none => st
  | some conversation =>
    let conv2 := saveAssistantMessageMem conversation message ora.nowMs movieData
    let row : ConvRow :=
      { conversation_id := cid, user_id := userId, turns := conv2.turnCount,
        total_tokens := conv2.totalTokens, messages := conv2.messages,
        discussed_movies := conv2.discussedMovies, user_preferences := conv2.userPreferences }
    { st with store := storeSet st.store cid conv2, db := upsertConversation st.db row }

/-- Source `isGeneralGreeting`. -/
def isGeneralGreeting (query : String) : Bool :=
  let normalizedQuery := jsTrim (jsToLower query)
  let greetingPatterns := ["hi", "hello", "hey", "hi there", "hello there",
    "good morning", "good afternoon", "good evening",
    "how are you", "whats up", "what" ++ (String.mk [aposC]) ++ "s up", "sup",
    "how is goosebumps", "how are goosebumps", "goosebumps"]
  greetingPatterns.any (fun pattern =>
    normalizedQuery = pattern ||
    prefOf (pattern ++ " ").data normalizedQuery.data ||
    prefOf (" " ++ pattern).data.reverse normalizedQuery.data.reverse)

/-- The default conversational reply used when generation yields
nothing or throws. -/
def conversationalFallback : String :=
  "I" ++ (String.mk [aposC]) ++
    "m here to help you discover great movies! What film interests you?"

/-- The greeting override for brand-new conversations. -/
def greetingReply : String :=
  "Hello! I" ++ (String.mk [aposC]) ++
    "m your movie advisor. What film has caught your interest today?"

/-- Source `handleGeneralConversation` with the conversational chain as
an oracle (`none` models a thrown error, handled by the catch block). -/
def handleGeneralConversation (ctx : ChainContext) (st : ChainState) (ora : Oracles) :
    ChainResponse × ChainState :=
  let conversation := storeGet st.store ctx.conversationId
  let isNewConversation :=
    match conversation with
    | none => true
    | some conv => conv.messages.length ≤ 1
  match ora.llmConverse with
  | some (text, tokensUsed) =>
    let responseText0 := jsOr (jsTrim text) conversationalFallback
    let responseText :=
      if isNewConversation && isGeneralGreeting ctx.query then greetingReply
      else responseText0
    let st2 :=
      match storeGet st.store ctx.conversationId with
      | some conv =>
        let updated := { conv with totalTokens := conv.totalTokens + tokensUsed }
        { st with store := storeSet st.store ctx.conversationId updated }
      | none => st
    let st3 := saveAssistantMessageS ctx.conversationId responseText none ctx.userId st2 ora
    let convNow := storeGet st3.store ctx.conversationId
    ({ message := responseText, movie := none, recommendation := none,
       turnCount := (convNow.map (fun c => c.turnCount)).getD 1,
       totalTokens := (convNow.map (fun c => c.totalTokens)).getD tokensUsed }, st3)
  | none =>
    let st2 := saveAssistantMessageS ctx.conversationId conversationalFallback none ctx.userId st ora
    ({ message := conversationalFallback, movie := none, recommendation := none,
       turnCount := 0, totalTokens := 0 }, st2)

/-- Regex `sequel|next|follow.up|part\s+2|part\s+ii|1984` of the
empty-titles fallback. -/
def sequelRequestRx : Rx :=
  ralt [rstr "sequel", rstr "next", rcat [rstr "follow", rdot, rstr "up"],
    rwords "part 2", rwords "part ii", rstr "1984"]

/-- Regex `sequel|different|another|else|1984|new|next` of the
anti-repetition check. -/
def differentRequestRx : Rx :=
  ralt [rstr "sequel", rstr "different", rstr "another", rstr "else",
    rstr "1984", rstr "new", rstr "next"]

/-- The clarification sent when no movie title could be extracted. -/
def emptyTitlesResponse (query : String) (conversation : Option ConversationMemory) : String :=
  let defaultMsg := "I couldn" ++ (String.mk [aposC]) ++
    "t identify a movie in your query. Could you please specify which movie you are asking about?"
  match conversation with
  | some conv =>
    match conv.discussedMovies.getLast? with
    | some lastMovie =>
      if rxTest true sequelRequestRx query then
        "I understand you" ++ (String.mk [aposC]) ++
          "re looking for a sequel or different version of \"" ++ lastMovie.title ++
          "\". Could you be more specific? For example, try \"Wonder Woman 1984\" if you" ++
          (String.mk [aposC]) ++ "re looking for that specific movie."
      else
        "I" ++ (String.mk [aposC]) ++ "m not sure which movie you" ++ (String.mk [aposC]) ++
          "re referring to. Are you asking about \"" ++ lastMovie.title ++
          "\" or a different film? Please clarify."
    | none => defaultMsg
  | none => defaultMsg

/-- The not-found reply when both the store and OMDB fail. -/
def notFoundResponse (query : String) (firstTitle : String)
    (conversation : Option ConversationMemory) : String :=
  let defaultMsg := "I couldn" ++ (String.mk [aposC]) ++ "t find information about \"" ++
    firstTitle ++ "\". Could you check the spelling or try asking about a different movie?"
  match conversation with
  | some conv =>
    match conv.discussedMovies.getLast? with
    | some lastMovie =>
      if jsIncludes (jsToLower firstTitle) "korean" ||
          jsIncludes (jsToLower firstTitle) "japanese" ||
          jsIncludes (jsToLower query) "korean" ||
          jsIncludes (jsToLower query) "japanese" then
        "I couldn" ++ (String.mk [aposC]) ++ "t find a Korean version of \"" ++
          lastMovie.title ++
          "\". You might be thinking of a different Korean film with a similar theme. Could you provide more details or try searching for specific Korean movie titles?"
      else
        "I couldn" ++ (String.mk [aposC]) ++ "t find \"" ++ firstTitle ++
          "\". Are you looking for something similar to \"" ++ lastMovie.title ++
          "\" that we discussed earlier, or a completely different movie?"
    | none => defaultMsg
  | none => defaultMsg

/-- Steps 7 to 13 of `processQuery` once raw movie data is in hand:
normalize, ensure a user-scoped row, reuse or generate a
recommendation, persist it, and answer. -/
def pqWithMovie (ctx : ChainContext) (st : ChainState) (ora : Oracles) (raw : RawMovie) :
    ChainResponse × ChainState :=
  let norm := normalizeMovieData raw st ora
  let st1 := norm.2
  let afterSave : NormalizedMovie × ChainState :=
    match ctx.userId with
    | some uid =>
      let saved := saveToDatabase norm.1 uid st1 ora
      (match saved.1 with
       | some movieId => { norm.1 with id := movieId }
       | none => norm.1, saved.2)
    | none => (norm.1, st1)
  let normalizedMovie := afterSave.1
  let st2 := afterSave.2
  match getExistingRecommendation normalizedMovie ctx.userId st2.db with
  | some existingRec =>
    let chatMessage := "Here" ++ (String.mk [aposC]) ++
      "s my detailed recommendation for \"" ++ normalizedMovie.title ++ "\" (" ++
      normalizedMovie.year ++ ")."
    let convNow := storeGet st2.store ctx.conversationId
    let st3 := saveAssistantMessageS ctx.conversationId chatMessage
      (some (liteOf normalizedMovie)) ctx.userId st2 ora
    let recOut : RecommendationRecord :=
      { id := existingRec.id, movie_id := normalizedMovie.id,
        recommendation := existingRec.recommendation,
        worth_watching := existingRec.worth_watching,
        created_at := existingRec.created_at, tokensUsed := 0 }
    ({ message := chatMessage, movie := some normalizedMovie,
       recommendation := some recOut,
       turnCount := (convNow.map (fun c => c.turnCount)).getD 0 + 1,
       totalTokens := (convNow.map (fun c => c.totalTokens)).getD 0 }, st3)
  | none =>
    let convBefore := storeGet st2.store ctx.conversationId
    let gen := generateRecommendation normalizedMovie convBefore ora.llmRecommend
      ora.shuffle (ora.uuid st2.fresh) ora.nowIso
    let recommendation := gen.1
    let st3 : ChainState :=
      let st2b := { st2 with fresh := st2.fresh + 1 }
      match gen.2 with
      | some conv => { st2b with store := storeSet st2b.store ctx.conversationId conv }
      | none => st2b
    let st4 : ChainState :=
      if ctx.userId.isSome && normalizedMovie.id ≠ "" then
        let recRow : RecRow :=
          { id := ora.uuid st3.fresh, movie_id := normalizedMovie.id,
            recommendation := recommendation.recommendation,
            worth_watching := recommendation.worth_watching, created_at := ora.nowIso }
        { st3 with
          db := { st3.db with recommendations := st3.db.recommendations ++ [recRow] }
          fresh := st3.fresh + 1 }
      else st3
    let currentConversation := storeGet st4.store ctx.conversationId
    let isRepeatedMovie :=
      (currentConversation.map (fun c => c.discussedMovies.any (fun m =>
        jsToLower m.title = jsToLower normalizedMovie.title))).getD false
    let assistantMessage :=
      if isRepeatedMovie then
        "Here" ++ (String.mk [aposC]) ++ "s the detailed recommendation for \"" ++
          normalizedMovie.title ++ "\" again."
      else
        "Great choice! Here" ++ (String.mk [aposC]) ++ "s my detailed take on \"" ++
          normalizedMovie.title ++ "\" (" ++ normalizedMovie.year ++ ")."
    let st5 := saveAssistantMessageS ctx.conversationId assistantMessage
      (some (liteOf normalizedMovie)) ctx.userId st4 ora
    ({ message := assistantMessage, movie := some normalizedMovie,
       recommendation := some recommendation,
       turnCount := (currentConversation.map (fun c => c.turnCount)).getD 0 + 1,
       totalTokens := (currentConversation.map (fun c => c.totalTokens)).getD 0 +
         recommendation.tokensUsed }, st5)

/-- Steps 5 and 6 of `processQuery`: user-scoped store search, then
OMDB, then the not-found reply. -/
def pqLookup (ctx : ChainContext) (st : ChainState) (ora : Oracles) (movieTitles : List String) :
    ChainResponse × ChainState :=
  match searchDatabase movieTitles ctx.userId st.db with
  | some row => pqWithMovie ctx st ora (rowToRaw row)
  | none =>
    match ora.omdb movieTitles with
    | some raw => pqWithMovie ctx st ora raw
    | none =>
      let conversation := storeGet st.store ctx.conversationId
      let response := notFoundResponse ctx.query (movieTitles.headD "") conversation
      let st2 := saveAssistantMessageS ctx.conversationId response none ctx.userId st ora
      ({ message := response, movie := none, recommendation := none,
         turnCount := 0, totalTokens := 0 }, st2)

/-- Source `processQuery`: the full pipeline for one request. -/
def processQuery (ctx : ChainContext) (st0 : ChainState) (ora : Oracles) :
    ChainResponse × ChainState :=
  let loaded := loadConversation ctx.conversationId st0
  let st1 := loaded.2
  let st2 := saveUserMessageS ctx.conversationId ctx.query st1 ora
  if detectGeneralConversation ctx.query then
    handleGeneralConversation ctx st2 ora
  else
    let convForExtract := storeGet st2.store ctx.conversationId
    let extracted := extractMovieTitles ctx.query convForExtract ora.llmExtract
    let movieTitles := extracted.1
    let st3 : ChainState :=
      match extracted.2 with
      | some conv => { st2 with store := storeSet st2.store ctx.conversationId conv }
      | none => st2
    if movieTitles.isEmpty then
      let conversation := storeGet st3.store ctx.conversationId
      let response := emptyTitlesResponse ctx.query conversation
      let st4 := saveAssistantMessageS ctx.conversationId response none ctx.userId st3 ora
      ({ message := response, movie := none, recommendation := none,
         turnCount := 0, totalTokens := 0 }, st4)
    else
      let conversation := storeGet st3.store ctx.conversationId
      let lastMovie := (conversation.map (fun c => c.discussedMovies.getLast?)).join
      let isDifferentRequest := rxTest true differentRequestRx ctx.query
      let antiRepetition : Bool :=
        match lastMovie with
        | some lm =>
          isDifferentRequest &&
            (let extractedTitle := jsToLower (movieTitles.headD "")
             let lastTitle := jsToLower lm.title
             extractedTitle = lastTitle ||
               extractBaseTitle extractedTitle = extractBaseTitle lastTitle)
        | none => false
      if antiRepetition then
        let response := "I see you mentioned \"" ++ movieTitles.headD "" ++
          "\", but it seems like you might be looking for a different movie or sequel. Could you be more specific? For example, if you are looking for Wonder Woman" ++
          (String.mk [aposC]) ++ "s sequel, try \"Wonder Woman 1984\"."
        let st4 := saveAssistantMessageS ctx.conversationId response none ctx.userId st3 ora
        ({ message := response, movie := none, recommendation := none,
           turnCount := 0, totalTokens := 0 }, st4)
      else pqLookup ctx st3 ora movieTitles

/-! ## Supporting lemmas -/

set_option maxRecDepth 40000

/-- Positivity of powers of ten. -/
theorem tenPowNat_pos (k : Nat) : 0 < tenPowNat k := by
  induction k with
  | zero => simp [tenPowNat]
  | succ k ih => exact Nat.mul_pos (by omega) ih

/-- Every finite `parseFloat` result has a positive denominator. -/
theorem parseFloat_den_pos (s : String) (n : Int) (d : Nat)
    (h : parseFloatJS s = JSNum.num n d) : 0 < d := by
  simp only [parseFloatJS] at h
  split at h
  · exact absurd h (by simp)
  · split at h
    · exact absurd h (by simp)
    · injection h with h1 h2
      subst h2
      exact tenPowNat_pos _

/-- The Boolean threshold test agrees with the rational-value reading. -/
theorem atLeastSeven_iff (x : JSNum) (hd : ∀ n d, x = JSNum.num n d → 0 < d) :
    atLeastSeven x = true ↔
      ((∃ q : ℚ, x.toRat = some q ∧ 7 ≤ q) ∨ x = JSNum.inf false) := by
  cases x with
  | nan => simp [atLeastSeven, JSNum.toRat]
  | inf neg => cases neg <;> simp [atLeastSeven, JSNum.toRat]
  | num n d =>
    have hd' : (0 : ℚ) < (d : ℚ) := by exact_mod_cast hd n d rfl
    simp only [atLeastSeven, JSNum.toRat, decide_eq_true_eq, Option.some.injEq]
    constructor
    · intro h
      left
      refine ⟨(n : ℚ) / (d : ℚ), rfl, ?_⟩
      rw [le_div_iff₀ hd']
      exact_mod_cast h
    · rintro (⟨q, hq, h7⟩ | h)
      · subst hq
        rw [le_div_iff₀ hd'] at h7
        exact_mod_cast h7
      · exact absurd h (by simp)

/-! ## Claim theorems -/

/-- C1: on both the generated and the failure-fallback path,
`worth_watching` is true exactly when the movie rating string parses
(as JavaScript `parseFloat` does) to a value of at least 7.0; rating
"8.5" gives true, "6.9" gives false, and a missing or non-numeric
rating gives false. -/
theorem chain_c1_worth_watching_threshold :
    ∀ (movieData : NormalizedMovie) (conversation : Option ConversationMemory)
      (llm : Option (String × Nat)) (shuffle : List String → List String) (uuid now : String),
      (((generateRecommendation movieData conversation llm shuffle uuid now).1.worth_watching = true) ↔
        ((∃ q : ℚ, (parseFloatJS (jsOr movieData.imdbRating "0")).toRat = some q ∧ 7 ≤ q) ∨
          parseFloatJS (jsOr movieData.imdbRating "0") = JSNum.inf false)) ∧
      (generateRecommendation { movieData with imdbRating := "8.5" } conversation llm shuffle uuid now).1.worth_watching = true ∧
      (generateRecommendation { movieData with imdbRating := "6.9" } conversation llm shuffle uuid now).1.worth_watching = false ∧
      (generateRecommendation { movieData with imdbRating := "N/A" } conversation llm shuffle uuid now).1.worth_watching = false ∧
      (generateRecommendation { movieData with imdbRating := "" } conversation llm shuffle uuid now).1.worth_watching = false := by
  intro movieData conversation llm shuffle uuid now
  have hworth : ∀ (md : NormalizedMovie),
      (generateRecommendation md conversation llm shuffle uuid now).1.worth_watching =
        ratingWorthWatching md.imdbRating := by
    intro md
    cases llm with
    | none => rfl
    | some p => rfl
  refine ⟨?_, ?_, ?_, ?_, ?_⟩
  · rw [hworth, ratingWorthWatching]
    exact atLeastSeven_iff _ (fun n d h => parseFloat_den_pos _ n d h)
  · rw [hworth]
    show ratingWorthWatching "8.5" = true
    decide
  · rw [hworth]
    show ratingWorthWatching "6.9" = false
    decide
  · rw [hworth]
    show ratingWorthWatching "N/A" = false
    decide
  · rw [hworth]
    show ratingWorthWatching "" = false
    decide

/-- C2 failing input: "Batman or Superman" matches a comparison pattern
yet the classifier routes it to the movie path, because the bare-title
movie-query pattern `[a-zA-Z][a-zA-Z\s:\x27-]+` anchored on both sides
is tested first and short-circuits to the movie path. -/
theorem chain_c2_comparison_routed_to_movie_path :
    detectGeneralConversation "Batman or Superman" = false ∧
    comparisonPatterns.any (fun p => rxTest true p (jsTrim "Batman or Superman")) = true := by
  constructor <;> decide

/-- C3 failing inputs: every bare affirmative or negative token matches
the simple-response pattern yet is classified as a movie query, because
the bare-title movie-query pattern also matches each token and is
tested first. -/
theorem chain_c3_bare_tokens_routed_to_movie_path :
    (["yes", "yeah", "yep", "sure", "no", "nope"].all (fun t =>
      !detectGeneralConversation t && rxTest true simpleResponseRx (jsTrim t))) = true := by
  decide

/-- C4 counterexample: an assistant-message save performs no truncation
of the message list, so a memory already holding ten messages grows to
eleven. -/
theorem chain_c4_assistant_save_overflows_messages :
    (saveAssistantMessageMem
      { messages := List.replicate 10 { role := Role.user, content := "m", timestamp := 0 },
        discussedMovies := [],
        userPreferences := { genres := [], lastContext := "" },
        totalTokens := 0, turnCount := 5 } "reply" 0 none).messages.length = 11 := by
  decide

/-- C4 amended: each user-message save leaves at most 10 messages and
each movie save leaves at most 5 discussed movies (oldest evicted
first); after 11 user-message saves from a fresh conversation exactly
the last 10 survive, and after 6 movie saves exactly the last 5
survive.  Assistant-message saves append to the message list without
truncating it. -/
theorem chain_c4_bounded_ring_buffers :
    ∀ (conv : ConversationMemory) (message : String) (ts : Nat),
      ((saveUserMessageMem conv message ts).messages.length ≤ 10) ∧
      (∀ (mv : MovieLite),
        ((saveAssistantMessageMem conv message ts (some mv)).discussedMovies.length ≤ 5)) ∧
      (∀ (contents : List String), contents.length = 11 →
        ((contents.foldl (fun acc c => saveUserMessageMem acc c ts) emptyConversation).messages.map
          (fun m => m.content) = contents.drop 1)) ∧
      (∀ (movies : List MovieLite), movies.length = 6 →
        ((movies.foldl (fun acc mv => saveAssistantMessageMem acc message ts (some mv))
            emptyConversation).discussedMovies.map (fun d => d.title) =
          (movies.map (fun m => m.title)).drop 1)) := by
  intro conv message ts
  refine ⟨?_, ?_, ?_, ?_⟩
  · simp only [saveUserMessageMem, lastN]
    split
    · simp only [List.length_drop]
      omega
    · omega
  · intro mv
    simp only [saveAssistantMessageMem, lastN]
    split
    · simp only [List.length_drop]
      omega
    · omega
  · intro contents h
    rcases contents with _|⟨a1,_|⟨a2,_|⟨a3,_|⟨a4,_|⟨a5,_|⟨a6,_|⟨a7,_|⟨a8,_|⟨a9,_|⟨a10,_|⟨a11,rest⟩⟩⟩⟩⟩⟩⟩⟩⟩⟩⟩ <;>
      simp only [List.length_cons, List.length_nil] at h <;> try omega
    rcases rest with _|⟨x,rest⟩
    · simp [saveUserMessageMem, emptyConversation, lastN]
    · simp at h
  · intro movies h
    rcases movies with _|⟨m1,_|⟨m2,_|⟨m3,_|⟨m4,_|⟨m5,_|⟨m6,rest⟩⟩⟩⟩⟩⟩ <;>
      simp only [List.length_cons, List.length_nil] at h <;> try omega
    rcases rest with _|⟨x,rest⟩
    · simp [saveAssistantMessageMem, emptyConversation, lastN]
    · simp at h

/-- Witness for the C4 bounds: eleven concrete user-message saves leave
exactly the last ten messages. -/
theorem chain_c4_bounded_ring_buffers_witness :
    (List.length ["m1","m2","m3","m4","m5","m6","m7","m8","m9","m10","m11"] = 11) ∧
    ((["m1","m2","m3","m4","m5","m6","m7","m8","m9","m10","m11"].foldl
        (fun acc c => saveUserMessageMem acc c 0) emptyConversation).messages.map
      (fun m => m.content) =
        ["m1","m2","m3","m4","m5","m6","m7","m8","m9","m10","m11"].drop 1) :=
  ⟨rfl, (chain_c4_bounded_ring_buffers emptyConversation "x" 0).2.2.1
    ["m1","m2","m3","m4","m5","m6","m7","m8","m9","m10","m11"] rfl⟩

/-- C5 counterexample: the query "sequel to it" contains the word
"sequel", the last discussed movie is "Wonder Woman", and
"Wonder Woman 1984" has not been discussed, yet the resolver returns
"Wonder Woman": the direct-reference token "it" belongs to an earlier
row of the contextual table and preempts the sequel lookup. -/
theorem chain_c5_direct_reference_preempts_sequel :
    handleContextualQueries "sequel to it"
      (some { messages := [],
              discussedMovies := [{ title := "Wonder Woman", genre := "Action", rating := "7.4" }],
              userPreferences := { genres := [], lastContext := "" },
              totalTokens := 0, turnCount := 1 }) = some "Wonder Woman" := by
  decide

/-- C5 amended: when the last discussed movie is "Wonder Woman", the
query contains "sequel", "Wonder Woman 1984" has not been discussed,
and no earlier rule fires (the query does not mention the previous
title, does not match the direct-movie pattern, and contains no
direct-reference token such as "it" or "that movie"), the resolver
returns "Wonder Woman 1984" from the static franchise map rather than
a generic pattern such as "Wonder Woman 2". -/
theorem chain_c5_sequel_uses_static_map :
    ∀ (q : String) (rest : List DiscussedMovie) (g r : String)
      (msgs : List Msg) (prefs : UserPreferences) (tok turns : Nat),
      jsIncludes (jsTrim (jsToLower q)) "sequel" = true →
      jsIncludes (jsTrim (jsToLower q)) "wonder woman" = false →
      firstMatchStr true directMoviePattern q = none →
      ((["that movie", "that film", "it", "this movie", "this film"] : List String).any
        (fun p => jsIncludes (jsTrim (jsToLower q)) p)) = false →
      (rest.any (fun prev => jsToLower prev.title = jsToLower "Wonder Woman 1984")) = false →
      handleContextualQueries q (some
        { messages := msgs,
          discussedMovies := rest ++ [{ title := "Wonder Woman", genre := g, rating := r }],
          userPreferences := prefs, totalTokens := tok, turnCount := turns }) =
        some "Wonder Woman 1984" := by
  intro q rest g r msgs prefs tok turns h1 h2 h3 h4 h5
  have e1 : jsToLower "Wonder Woman" = "wonder woman" := by decide
  simp only [handleContextualQueries, List.getLast?_concat, List.dropLast_concat, h3, e1, h2,
    Bool.false_eq_true, if_false]
  simp only [runContextual, contextualPatterns, h4, Bool.false_eq_true, if_false,
    List.any_cons, List.any_nil, h1, Bool.true_or, if_true]
  have e2 : getBaseTitle "Wonder Woman" = "Wonder Woman" := by decide
  simp only [handleContextKind, e2]
  simp only [sequelLookup, e1]
  have e3 : List.find?
        (fun p =>
          decide ("wonder woman" = p.1) || jsIncludes "wonder woman" p.1 ||
            jsIncludes p.1 "wonder woman")
        sequelMap = some ("wonder woman", ["Wonder Woman 1984", "Wonder Woman: 1984"]) := by
    decide
  simp only [e3]
  have e4 : List.find?
      (fun sequel =>
        (!rest.any fun prev => decide (jsToLower prev.title = jsToLower sequel)) &&
          decide ("wonder woman" ≠ jsToLower sequel))
      ["Wonder Woman 1984", "Wonder Woman: 1984"] = some "Wonder Woman 1984" := by
    simp only [List.find?_cons, h5,
      show (!false && decide ("wonder woman" ≠ jsToLower "Wonder Woman 1984")) = true from by
        decide]
  simp only [e4]
  rfl

/-- Witness for the amended C5 statement at the query
"what about the sequel". -/
theorem chain_c5_sequel_uses_static_map_witness :
    handleContextualQueries "what about the sequel"
      (some { messages := [],
              discussedMovies := [{ title := "Wonder Woman", genre := "Action", rating := "7.4" }],
              userPreferences := { genres := [], lastContext := "" },
              totalTokens := 0, turnCount := 1 }) = some "Wonder Woman 1984" :=
  chain_c5_sequel_uses_static_map "what about the sequel" [] "Action" "7.4" []
    { genres := [], lastContext := "" } 0 1
    (by decide) (by decide) (by decide) (by decide) (by decide)

set_option maxHeartbeats 1000000 in
/-- C7 counterexample: two fallback runs for the same Action movie that
differ only in the random shuffle outcome produce different
recommendation texts, so the failure fallback is not deterministic. -/
theorem chain_c7_fallback_depends_on_shuffle :
    (generateRecommendation
      { id := "m1", title := "Heat", year := "1995", imdbID := "tt0113277", poster := "",
        imdbRating := "8.3", imdbVotes := "", plot := "", director := "", actors := "",
        genre := "Action", created_at := "" } none none id "u" "t").1.recommendation ≠
    (generateRecommendation
      { id := "m1", title := "Heat", year := "1995", imdbID := "tt0113277", poster := "",
        imdbRating := "8.3", imdbVotes := "", plot := "", director := "", actors := "",
        genre := "Action", created_at := "" } none none List.reverse "u" "t").1.recommendation := by
  decide

/-- C7 amended: with the random shuffle outcome fixed the fallback is a
pure function of its inputs, and the fallback text is independent of
the shuffle exactly when the (defaulted) genre matches no entry of the
static genre table. -/
theorem chain_c7_fallback_deterministic_on_unmatched_genre :
    ∀ (movieData : NormalizedMovie) (conversation : Option ConversationMemory)
      (shuffle1 shuffle2 : List String → List String) (uuid now : String),
      (genreMovies.all (fun entry =>
        !(jsIncludes (jsToLower (jsOr movieData.genre "Drama")) (jsToLower entry.1) ||
          jsIncludes (jsToLower entry.1) (jsToLower (jsOr movieData.genre "Drama"))))) = true →
      (generateRecommendation movieData conversation none shuffle1 uuid now).1.recommendation =
        (generateRecommendation movieData conversation none shuffle2 uuid now).1.recommendation := by
  intro movieData conversation shuffle1 shuffle2 uuid now hnone
  have hfind : ∀ (sh : List String → List String),
      getSimilarMoviesByGenre (jsOr movieData.genre "Drama") sh = fallbackPopular := by
    intro sh
    simp only [getSimilarMoviesByGenre]
    have : genreMovies.find? (fun p =>
        jsIncludes (jsToLower (jsOr movieData.genre "Drama")) (jsToLower p.1) ||
        jsIncludes (jsToLower p.1) (jsToLower (jsOr movieData.genre "Drama"))) = none := by
      rw [List.find?_eq_none]
      intro p hp
      have := (List.all_eq_true.mp hnone) p hp
      simpa using this
    rw [this]
  simp only [generateRecommendation, hfind]

/-- Witness for the amended C7 statement at a Western, a genre the
static table does not contain. -/
theorem chain_c7_fallback_deterministic_on_unmatched_genre_witness :
    (generateRecommendation
      { id := "m2", title := "Unforgiven", year := "1992", imdbID := "tt0105695", poster := "",
        imdbRating := "8.2", imdbVotes := "", plot := "", director := "", actors := "",
        genre := "Western", created_at := "" } none none id "u" "t").1.recommendation =
    (generateRecommendation
      { id := "m2", title := "Unforgiven", year := "1992", imdbID := "tt0105695", poster := "",
        imdbRating := "8.2", imdbVotes := "", plot := "", director := "", actors := "",
        genre := "Western", created_at := "" } none none List.reverse "u" "t").1.recommendation :=
  chain_c7_fallback_deterministic_on_unmatched_genre
    { id := "m2", title := "Unforgiven", year := "1992", imdbID := "tt0105695", poster := "",
      imdbRating := "8.2", imdbVotes := "", plot := "", director := "", actors := "",
      genre := "Western", created_at := "" } none id List.reverse "u" "t" (by decide)

/-- C9: a query matching the movie-with-year-or-actor bypass pattern is
returned verbatim (trimmed) as the single candidate title, and the
result is independent of the conversation memory and of the
model-assisted extractor, which are never consulted. -/
theorem chain_c9_direct_bypass_verbatim :
    ∀ (query : String) (conversation : Option ConversationMemory)
      (llmExtract : String → String → Option (String × Nat)),
      rxTest true directBypassRx (jsTrim query) = true →
      extractMovieTitles query conversation llmExtract = ([jsTrim query], conversation) := by
  intro query conversation llmExtract h
  simp only [extractMovieTitles, h, if_true]

/-- Witness for C9 at the query "Ace 2025". -/
theorem chain_c9_direct_bypass_verbatim_witness :
    rxTest true directBypassRx (jsTrim "Ace 2025") = true ∧
    extractMovieTitles "Ace 2025" none (fun _ _ => none) = ([jsTrim "Ace 2025"], none) :=
  ⟨by decide, chain_c9_direct_bypass_verbatim "Ace 2025" none (fun _ _ => none) (by decide)⟩

/-- Every entry of the static genre table lists exactly four titles. -/
theorem genreMovies_entry_len : ∀ p ∈ genreMovies, (p.2).length = 4 := by decide

/-- C6: when the generation call fails, the fallback path is total and
always yields a complete recommendation record (id, movie id, text,
worth-watching flag, creation time) whose worth-watching flag uses the
same rating threshold, whose three similar titles come from the
matching entry of the static fifteen-genre table, and which defaults to
the three fixed popular titles for an unmatched genre. -/
theorem chain_c6_fallback_complete :
    ∀ (movieData : NormalizedMovie) (conversation : Option ConversationMemory)
      (shuffle : List String → List String) (uuid now : String),
      (∀ l : List String, (shuffle l).Perm l) →
      ((generateRecommendation movieData conversation none shuffle uuid now).1.id = uuid ∧
       (generateRecommendation movieData conversation none shuffle uuid now).1.movie_id = movieData.id ∧
       (generateRecommendation movieData conversation none shuffle uuid now).1.created_at = now ∧
       (generateRecommendation movieData conversation none shuffle uuid now).1.worth_watching =
         ratingWorthWatching movieData.imdbRating ∧
       genreMovies.length = 15 ∧
       ∃ sims : List String, sims.length = 3 ∧
         (generateRecommendation movieData conversation none shuffle uuid now).1.recommendation =
           fallbackRecommendationText movieData (ratingWorthWatching movieData.imdbRating) sims ∧
         ((∃ entry ∈ genreMovies,
             (jsIncludes (jsToLower (jsOr movieData.genre "Drama")) (jsToLower entry.1) ||
              jsIncludes (jsToLower entry.1) (jsToLower (jsOr movieData.genre "Drama"))) = true ∧
             ∀ t ∈ sims, t ∈ entry.2) ∨
           sims = fallbackPopular)) := by
  intro movieData conversation shuffle uuid now hperm
  refine ⟨rfl, rfl, rfl, rfl, by decide, ?_⟩
  refine ⟨getSimilarMoviesByGenre (jsOr movieData.genre "Drama") shuffle, ?_, rfl, ?_⟩
  · simp only [getSimilarMoviesByGenre]
    cases hfind : genreMovies.find? (fun p =>
        jsIncludes (jsToLower (jsOr movieData.genre "Drama")) (jsToLower p.1) ||
        jsIncludes (jsToLower p.1) (jsToLower (jsOr movieData.genre "Drama"))) with
    | none => simp [fallbackPopular]
    | some entry =>
      have hmem := List.mem_of_find?_eq_some hfind
      have hlen4 := genreMovies_entry_len entry hmem
      have hl : (shuffle entry.2).length = entry.2.length := (hperm entry.2).length_eq
      simp only [List.length_take, hl, hlen4]
      omega
  · simp only [getSimilarMoviesByGenre]
    cases hfind : genreMovies.find? (fun p =>
        jsIncludes (jsToLower (jsOr movieData.genre "Drama")) (jsToLower p.1) ||
        jsIncludes (jsToLower p.1) (jsToLower (jsOr movieData.genre "Drama"))) with
    | none => right; rfl
    | some entry =>
      left
      refine ⟨entry, List.mem_of_find?_eq_some hfind,
        by simpa using List.find?_some hfind, ?_⟩
      intro t ht
      exact ((hperm entry.2).mem_iff).mp (List.mem_of_mem_take ht)

/-- A concrete Action movie used to exercise the fallback path. -/
def actionSample : NormalizedMovie :=
  { id := "m6", title := "Mad Max", year := "1979", imdbID := "tt0079501", poster := "",
    imdbRating := "6.8", imdbVotes := "", plot := "", director := "", actors := "",
    genre := "Action", created_at := "" }

/-- Witness for C6 at a concrete Action movie with the identity
shuffle. -/
theorem chain_c6_fallback_complete_witness :
    ((generateRecommendation actionSample none none id "u6" "t6").1.id = "u6" ∧
     (generateRecommendation actionSample none none id "u6" "t6").1.movie_id = actionSample.id ∧
     (generateRecommendation actionSample none none id "u6" "t6").1.created_at = "t6" ∧
     (generateRecommendation actionSample none none id "u6" "t6").1.worth_watching =
       ratingWorthWatching actionSample.imdbRating ∧
     genreMovies.length = 15 ∧
     ∃ sims : List String, sims.length = 3 ∧
       (generateRecommendation actionSample none none id "u6" "t6").1.recommendation =
         fallbackRecommendationText actionSample (ratingWorthWatching actionSample.imdbRating) sims ∧
       ((∃ entry ∈ genreMovies,
           (jsIncludes (jsToLower (jsOr actionSample.genre "Drama")) (jsToLower entry.1) ||
            jsIncludes (jsToLower entry.1) (jsToLower (jsOr actionSample.genre "Drama"))) = true ∧
           ∀ t ∈ sims, t ∈ entry.2) ∨
         sims = fallbackPopular)) :=
  chain_c6_fallback_complete actionSample none id "u6" "t6" (fun l => List.Perm.refl l)

/-- Completeness of `lastIndexOfChar`: a `none` result means the
character occurs nowhere. -/
theorem lastIndexOfChar_eq_none (c : Char) :
    ∀ (l : List Char), lastIndexOfChar c l = none → ∀ j, l.get? j ≠ some c := by
  intro l
  induction l with
  | nil => intro h j; simp
  | cons x xs ih =>
    intro h j
    simp only [lastIndexOfChar] at h
    cases hx : lastIndexOfChar c xs with
    | some k => rw [hx] at h; exact absurd h (by simp)
    | none =>
      rw [hx] at h
      by_cases hxc : x = c
      · rw [if_pos hxc] at h
        exact absurd h (by simp)
      · cases j with
        | zero =>
          simp only [List.get?_cons_zero]
          intro hc
          injection hc with hc
          exact hxc hc
        | succ j2 =>
          simp only [List.get?_cons_succ]
          exact ih hx j2

/-- Soundness of `lastIndexOfChar`: a found index is in range, holds
the character, and no later position does. -/
theorem lastIndexOfChar_eq_some (c : Char) :
    ∀ (l : List Char) (i : Nat), lastIndexOfChar c l = some i →
      i < l.length ∧ l.get? i = some c ∧ ∀ j, i < j → l.get? j ≠ some c := by
  intro l
  induction l with
  | nil => intro i h; simp [lastIndexOfChar] at h
  | cons x xs ih =>
    intro i h
    simp only [lastIndexOfChar] at h
    cases hx : lastIndexOfChar c xs with
    | some k =>
      rw [hx] at h
      injection h with h
      subst h
      obtain ⟨hk, hget, hafter⟩ := ih k hx
      refine ⟨by simp only [List.length_cons]; omega, by simpa using hget, ?_⟩
      intro j hj
      cases j with
      | zero => omega
      | succ j2 =>
        simp only [List.get?_cons_succ]
        exact hafter j2 (by omega)
    | none =>
      rw [hx] at h
      by_cases hxc : x = c
      · rw [if_pos hxc] at h
        injection h with h
        subst h
        refine ⟨by simp, by simp [List.get?_cons_zero, hxc], ?_⟩
        intro j hj
        cases j with
        | zero => omega
        | succ j2 =>
          simp only [List.get?_cons_succ]
          exact lastIndexOfChar_eq_none c xs hx j2
      · rw [if_neg hxc] at h
        exact absurd h (by simp)

/-- C8: output longer than 600 characters is cut at the last full stop
of the first 600 characters when that stop sits past position 200,
otherwise hard-truncated to 597 characters plus an ellipsis; the
stored text never exceeds 600 characters, and the generated path
stores exactly the truncation of the trimmed completion text. -/
theorem chain_c8_truncation :
    ∀ (s : String),
      (600 < s.data.length →
        ((∃ i, 200 < i ∧ i < 600 ∧ (s.data.take 600).get? i = some '.' ∧
            (∀ j, i < j → (s.data.take 600).get? j ≠ some '.') ∧
            (truncateRecommendation s).data = (s.data.take 600).take (i + 1)) ∨
          ((∀ j, 200 < j → (s.data.take 600).get? j ≠ some '.') ∧
            (truncateRecommendation s).data = s.data.take 597 ++ "...".data))) ∧
      (truncateRecommendation s).data.length ≤ 600 ∧
      (∀ (movieData : NormalizedMovie) (conversation : Option ConversationMemory)
        (shuffle : List String → List String) (uuid now : String) (tokens : Nat),
        (generateRecommendation movieData conversation (some (s, tokens)) shuffle uuid now).1.recommendation =
          truncateRecommendation (jsTrim s)) := by
  intro s
  have htake600 : 600 < s.data.length → (s.data.take 600).length = 600 := by
    intro h
    simp only [List.length_take]
    omega
  have hdots : ("...".data).length = 3 := rfl
  refine ⟨?_, ?_, ?_⟩
  · intro hlen
    simp only [truncateRecommendation, truncateRecChars, if_pos hlen]
    cases hfind : lastIndexOfChar '.' (s.data.take 600) with
    | some i =>
      obtain ⟨hi, hget, hafter⟩ := lastIndexOfChar_eq_some '.' _ i hfind
      by_cases h200 : i > 200
      · left
        refine ⟨i, h200, ?_, hget, hafter, ?_⟩
        · rw [htake600 hlen] at hi
          exact hi
        · simp [if_pos h200]
      · right
        refine ⟨?_, ?_⟩
        · intro j hj
          exact hafter j (by omega)
        · simp only [if_neg h200]
          rw [List.take_take]
          norm_num
    | none =>
      right
      refine ⟨fun j hj => lastIndexOfChar_eq_none '.' _ hfind j, ?_⟩
      rw [List.take_take]
      norm_num
  · simp only [truncateRecommendation, truncateRecChars]
    split
    · rename_i hlen
      cases hfind : lastIndexOfChar '.' (s.data.take 600) with
      | some i =>
        obtain ⟨hi, -, -⟩ := lastIndexOfChar_eq_some '.' _ i hfind
        rw [htake600 hlen] at hi
        split
        · rename_i x2 i2 heq
          injection heq with heq
          subst heq
          split
          · simp only [List.length_take]
            omega
          · simp only [List.length_append, List.length_take, hdots]
            omega
        · rename_i x2 heq
          exact absurd heq (by simp)
      | none =>
        simp only [List.length_append, List.length_take, hdots]
        omega
    · rename_i hlen
      simp only [not_lt] at hlen
      exact hlen
  · intro movieData conversation shuffle uuid now tokens
    rfl

/-- A 652-character text whose only full stop of the first 600
characters sits at index 250. -/
def sampleLongText : String :=
  ⟨List.replicate 250 'a' ++ '.' :: List.replicate 401 'b'⟩

/-- Witness for C8 at a concrete overlong text. -/
theorem chain_c8_truncation_witness :
    600 < sampleLongText.data.length ∧
    ((∃ i, 200 < i ∧ i < 600 ∧ (sampleLongText.data.take 600).get? i = some '.' ∧
        (∀ j, i < j → (sampleLongText.data.take 600).get? j ≠ some '.') ∧
        (truncateRecommendation sampleLongText).data =
          (sampleLongText.data.take 600).take (i + 1)) ∨
      ((∀ j, 200 < j → (sampleLongText.data.take 600).get? j ≠ some '.') ∧
        (truncateRecommendation sampleLongText).data =
          sampleLongText.data.take 597 ++ "...".data)) :=
  ⟨by decide, (chain_c8_truncation sampleLongText).1 (by decide)⟩

/-- Conversation upserts leave the movies and recommendations tables
unchanged. -/
theorem upsertConversation_frame (db : DB) (row : ConvRow) :
    (upsertConversation db row).movies = db.movies ∧
    (upsertConversation db row).recommendations = db.recommendations := by
  simp only [upsertConversation]
  split <;> exact ⟨rfl, rfl⟩

/-- Assistant-message saves only touch the cache and the conversations
table. -/
theorem saveAssistantMessageS_frame (cid message : String) (movieData : Option MovieLite)
    (userId : Option String) (st : ChainState) (ora : Oracles) :
    (saveAssistantMessageS cid message movieData userId st ora).db.movies = st.db.movies ∧
    (saveAssistantMessageS cid message movieData userId st ora).db.recommendations =
      st.db.recommendations := by
  simp only [saveAssistantMessageS]
  cases storeGet st.store cid with
  | none => exact ⟨rfl, rfl⟩
  | some conv => exact upsertConversation_frame _ _

/-- User-message saves do not touch the store at all. -/
theorem saveUserMessageS_db (cid message : String) (st : ChainState) (ora : Oracles) :
    (saveUserMessageS cid message st ora).db = st.db := by
  simp only [saveUserMessageS]
  cases storeGet st.store cid with
  | none => rfl
  | some conv => rfl

/-- Loading a conversation does not touch the store. -/
theorem loadConversation_db (cid : String) (st : ChainState) :
    (loadConversation cid st).2.db = st.db := by
  simp only [loadConversation]
  cases storeGet st.store cid with
  | some conv => rfl
  | none =>
    cases h : st.db.conversations.filter (fun r => r.conversation_id = cid) with
    | nil => rfl
    | cons r rest => cases rest <;> rfl

/-- Normalization touches at most the freshness counter. -/
theorem normalizeMovieData_db (raw : RawMovie) (st : ChainState) (ora : Oracles) :
    (normalizeMovieData raw st ora).2.db = st.db := by
  simp only [normalizeMovieData]
  cases raw.id with
  | some mid => rfl
  | none => rfl

/-- With no user id, steps 7 to 13 never write a movie or a
recommendation row. -/
theorem pqWithMovie_guest_frame (ctx : ChainContext) (st : ChainState) (ora : Oracles)
    (raw : RawMovie) (h : ctx.userId = none) :
    (pqWithMovie ctx st ora raw).2.db.movies = st.db.movies ∧
    (pqWithMovie ctx st ora raw).2.db.recommendations = st.db.recommendations := by
  simp only [pqWithMovie, h, Option.isSome_none, Bool.false_and, Bool.false_eq_true, if_false]
  cases hex : getExistingRecommendation (normalizeMovieData raw st ora).1 none
      (normalizeMovieData raw st ora).2.db with
  | some existingRec =>
    constructor
    · rw [(saveAssistantMessageS_frame _ _ _ _ _ _).1, normalizeMovieData_db]
    · rw [(saveAssistantMessageS_frame _ _ _ _ _ _).2, normalizeMovieData_db]
  | none =>
    cases hgen : (generateRecommendation (normalizeMovieData raw st ora).1
        (storeGet (normalizeMovieData raw st ora).2.store ctx.conversationId)
        ora.llmRecommend ora.shuffle (ora.uuid (normalizeMovieData raw st ora).2.fresh)
        ora.nowIso).2 with
    | some conv =>
      constructor
      · rw [(saveAssistantMessageS_frame _ _ _ _ _ _).1]
        have := normalizeMovieData_db raw st ora
        simp only [this]
      · rw [(saveAssistantMessageS_frame _ _ _ _ _ _).2]
        have := normalizeMovieData_db raw st ora
        simp only [this]
    | none =>
      constructor
      · rw [(saveAssistantMessageS_frame _ _ _ _ _ _).1]
        have := normalizeMovieData_db raw st ora
        simp only [this]
      · rw [(saveAssistantMessageS_frame _ _ _ _ _ _).2]
        have := normalizeMovieData_db raw st ora
        simp only [this]

/-- With no user id, the store search returns nothing and the
movie/recommendation tables survive the whole lookup stage. -/
theorem pqLookup_guest_frame (ctx : ChainContext) (st : ChainState) (ora : Oracles)
    (movieTitles : List String) (h : ctx.userId = none) :
    (pqLookup ctx st ora movieTitles).2.db.movies = st.db.movies ∧
    (pqLookup ctx st ora movieTitles).2.db.recommendations = st.db.recommendations := by
  simp only [pqLookup, h, searchDatabase]
  cases ora.omdb movieTitles with
  | some raw => exact pqWithMovie_guest_frame ctx st ora raw h
  | none =>
    exact ⟨(saveAssistantMessageS_frame _ _ _ _ _ _).1,
      (saveAssistantMessageS_frame _ _ _ _ _ _).2⟩

/-- C10: a movie-path query processed for a guest (null user id)
leaves the movies and recommendations tables untouched — only the
conversation record changes — and the user-scoped store search
returns nothing for a null user id without consulting the store. -/
theorem chain_c10_guest_leaves_catalog_unchanged :
    ∀ (ctx : ChainContext) (st : ChainState) (ora : Oracles),
      ctx.userId = none →
      detectGeneralConversation ctx.query = false →
      ((processQuery ctx st ora).2.db.movies = st.db.movies ∧
       (processQuery ctx st ora).2.db.recommendations = st.db.recommendations ∧
       (∀ (titles : List String) (db : DB), searchDatabase titles none db = none)) := by
  intro ctx st ora huid hdet
  have hdb2 : (saveUserMessageS ctx.conversationId ctx.query
      (loadConversation ctx.conversationId st).2 ora).db = st.db := by
    rw [saveUserMessageS_db]
    exact loadConversation_db _ _
  have frame : (processQuery ctx st ora).2.db.movies = st.db.movies ∧
      (processQuery ctx st ora).2.db.recommendations = st.db.recommendations := by
    simp only [processQuery, hdet, Bool.false_eq_true, if_false]
    cases hext : (extractMovieTitles ctx.query
        (storeGet (saveUserMessageS ctx.conversationId ctx.query
          (loadConversation ctx.conversationId st).2 ora).store ctx.conversationId)
        ora.llmExtract).2 with
    | some conv =>
      split
      · exact ⟨by rw [(saveAssistantMessageS_frame _ _ _ _ _ _).1]; simp only [hdb2],
          by rw [(saveAssistantMessageS_frame _ _ _ _ _ _).2]; simp only [hdb2]⟩
      · split
        · exact ⟨by rw [(saveAssistantMessageS_frame _ _ _ _ _ _).1]; simp only [hdb2],
            by rw [(saveAssistantMessageS_frame _ _ _ _ _ _).2]; simp only [hdb2]⟩
        · exact ⟨by rw [(pqLookup_guest_frame ctx _ ora _ huid).1]; simp only [hdb2],
            by rw [(pqLookup_guest_frame ctx _ ora _ huid).2]; simp only [hdb2]⟩
    | none =>
      split
      · exact ⟨by rw [(saveAssistantMessageS_frame _ _ _ _ _ _).1]; simp only [hdb2],
          by rw [(saveAssistantMessageS_frame _ _ _ _ _ _).2]; simp only [hdb2]⟩
      · split
        · exact ⟨by rw [(saveAssistantMessageS_frame _ _ _ _ _ _).1]; simp only [hdb2],
            by rw [(saveAssistantMessageS_frame _ _ _ _ _ _).2]; simp only [hdb2]⟩
        · exact ⟨by rw [(pqLookup_guest_frame ctx _ ora _ huid).1]; simp only [hdb2],
            by rw [(pqLookup_guest_frame ctx _ ora _ huid).2]; simp only [hdb2]⟩
  exact ⟨frame.1, frame.2, fun titles db => rfl⟩

/-- Concrete guest request used as the C10 witness. -/
def guestContext : ChainContext :=
  { userId := none, query := "how is up", conversationId := "c1", sessionId := "s1" }

/-- Concrete empty pipeline state used as the C10 witness. -/
def emptyChainState : ChainState :=
  { store := [], db := { movies := [], recommendations := [], conversations := [] }, fresh := 0 }

/-- Concrete oracles used as the C10 witness: the extractor finds
"Up", OMDB returns the movie, generation succeeds. -/
def guestOracles : Oracles :=
  { llmExtract := fun _ _ => some ("Up", 5)
    llmRecommend := some ("A heartfelt adventure.", 7)
    llmConverse := some ("Hello!", 4)
    omdb := fun _ => some
      { id := none, title := "Up", year := "2009", imdbID := "tt1049413", poster := "p",
        imdbRating := "8.3", imdbVotes := "1,028,988", plot := "pl", director := "d",
        actors := "a", genre := "Animation, Adventure", created_at := none }
    uuid := fun n => "uuid-" ++ toString n
    nowIso := "2026-01-01T00:00:00Z"
    nowMs := 0
    shuffle := id }

/-- Witness for C10 at a concrete guest request. -/
theorem chain_c10_guest_leaves_catalog_unchanged_witness :
    guestContext.userId = none ∧
    detectGeneralConversation guestContext.query = false ∧
    ((processQuery guestContext emptyChainState guestOracles).2.db.movies =
        emptyChainState.db.movies ∧
     (processQuery guestContext emptyChainState guestOracles).2.db.recommendations =
        emptyChainState.db.recommendations ∧
     (∀ (titles : List String) (db : DB), searchDatabase titles none db = none)) :=
  ⟨rfl, by decide,
    chain_c10_guest_leaves_catalog_unchanged guestContext emptyChainState guestOracles
      rfl (by decide)⟩

end BingeHouse
